import Mathlib

/-!
Verification of the Mini C Compiler (lexer, parser, semantic analyzer, TAC
code generator, optimizer, TAC interpreter) against its natural-language
specification.

This file shallowly embeds the Python sources
(`lexical.py`, `parser.py`, `semantic.py`, `codegen.py`, `optimizer.py`,
`main.py`) as executable Lean definitions and proves/refutes the spec claims.

Modelling conventions:
* Python values flowing through TAC quadruple slots are modelled by `Py`
  (`none` / `int` / `str`), mirroring the dynamically-typed operand slots.
* Python dicts keyed by strings are modelled by association lists whose
  `insert` prepends; lookup returns the most recent binding, which matches
  dict lookup/overwrite behaviour (the dicts here are never iterated).
* Recursive procedures whose termination Lean cannot see structurally
  (tokenizer loop, recursive-descent parser, semantic visitor, the TAC
  interpreter loop) receive an explicit fuel argument; exhausted fuel is a
  distinguished `timeout`-style outcome, never confused with a raised
  Python exception (which is modelled as `Except.error` / the `err` case).
* Characters are modelled as the ASCII subset actually produced by the
  sources at hand (Python's `str.isdigit`/`\d` also accept some non-ASCII
  digits; no claim depends on those).
-/

/-- Python value in a TAC operand slot or environment: `None`, `int`, `str`. -/
inductive Py where
  | none : Py
  | int (i : Int) : Py
  | str (s : String) : Py
deriving DecidableEq, Repr

/-- TAC quadruple `(op, a1, a2, res)` as built by `codegen.py`.
`res` is always a string or `None` in every quadruple the program builds,
so it is modelled as `Option String`. -/
structure Instr where
  op : String
  a1 : Py
  a2 : Py
  res : Option String
deriving DecidableEq, Repr

/-- ASCII decimal digit test for a character. -/
def isDigitChar (c : Char) : Bool := '0' ≤ c ∧ c ≤ '9'

/-- Python `s.isdigit()` on the ASCII fragment: nonempty and all digits. -/
def pyIsDigit (s : String) : Bool :=
  !s.data.isEmpty && s.data.all isDigitChar

/-- Numeric value of an all-digit string (used to model `eval` on the
digit-string operands the optimizer folds). -/
def digitsToNat (s : String) : Nat :=
  s.data.foldl (fun acc c => 10 * acc + (c.toNat - '0'.toNat)) 0

/-- ASCII whitespace stripped by Python `int()` before parsing
(space, tab, newline, vertical tab, form feed, carriage return). -/
def isPyWs (c : Char) : Bool :=
  c = ' ' || c = '\t' || c = '\n' || c = '\x0b' || c = '\x0c' || c = '\r'

/-- Strip ASCII whitespace from both ends of a character list. -/
def pyStripWs (l : List Char) : List Char :=
  ((l.dropWhile isPyWs).reverse.dropWhile isPyWs).reverse

/-- The digit body of a Python base-10 integer literal: ASCII digits in
groups separated by single underscores.  `1_0` is legal; `_1`, `1_` and
`1__0` are not (the underscore must sit strictly between two digits). -/
def digitGroups : List Char → Bool
  | [] => false
  | [c] => isDigitChar c
  | c :: '_' :: rest => isDigitChar c && digitGroups rest
  | c :: rest => isDigitChar c && digitGroups rest

/-- Numeric value of a digit body, ignoring the grouping underscores. -/
def digitGroupsVal (l : List Char) : Nat :=
  digitsToNat (String.mk (l.filter fun c => c ≠ '_'))

/-- Python `int(s)` on the ASCII fragment: whitespace is stripped from
both ends, then an optional single sign precedes digit groups with
single underscores between digits (`int(" 5") = 5`, `int("1_0") = 10`);
anything else raises `ValueError`, modelled as `none`. -/
def pyInt? (s : String) : Option Int :=
  match pyStripWs s.data with
  | '-' :: rest =>
      if digitGroups rest then Option.some (-(digitGroupsVal rest : Int))
      else Option.none
  | '+' :: rest =>
      if digitGroups rest then Option.some (digitGroupsVal rest : Int)
      else Option.none
  | l =>
      if digitGroups l then Option.some (digitGroupsVal l : Int)
      else Option.none

/-- Python `s.startswith("t")`: first character is `t`. -/
def pyStartsWithT (s : String) : Bool :=
  match s.data with
  | [] => false
  | c :: _ => c = 't'

/-- `optimizer.py` line 33 / 48: `res and res.startswith("t")` on the
result slot (`None` and the empty string are falsy). -/
def tempDest (res : Option String) : Bool :=
  match res with
  | Option.none => false
  | Option.some r => pyStartsWithT r

/-- Association-list model of a Python dict keyed by strings.  Assignment
prepends; lookup takes the most recent binding. -/
abbrev SMap (α : Type) : Type := List (String × α)

def SMap.lookup {α : Type} (m : SMap α) (k : String) : Option α :=
  match m with
  | [] => Option.none
  | (k', v) :: rest => if k' = k then Option.some v else SMap.lookup rest k

def SMap.insert {α : Type} (m : SMap α) (k : String) (v : α) : SMap α :=
  (k, v) :: m

/-- The optimizer's `temp_map`: temp name → representative operand. -/
abbrev TMap := SMap Py

/-- `optimizer.py` line 18-19: `resolve(x) = temp_map.get(x, x)` (the
default is the name itself, re-wrapped as a string operand). -/
def resolveName (m : TMap) (s : String) : Py :=
  match SMap.lookup m s with
  | Option.some v => v
  | Option.none => Py.str s

/-- Resolution applied only to string operands, as the source guards every
resolution with `isinstance(_, str)`. -/
def resolveObj (m : TMap) (p : Py) : Py :=
  match p with
  | Py.str s => resolveName m s
  | x => x

/-- Opcodes the optimizer passes through with operand resolution only
(`optimizer.py` line 23). -/
def ctrlOps : List String :=
  ["LABEL", "GOTO", "IFZ_GOTO", "FUNC", "END_FUNC", "PARAM", "CALL", "POP", "PARAM_DECL"]

/-- Arithmetic/relational opcodes (`optimizer.py` line 40). -/
def arithOps : List String :=
  ["PLUS", "MINUS", "MUL", "DIV", "EQ", "NE", "GT", "LT", "GE", "LE"]

/-- Is a resolved operand a digit string (`isinstance(x, str) and x.isdigit()`)? -/
def digitOperand (p : Py) : Bool :=
  match p with
  | Py.str s => pyIsDigit s
  | _ => false

/-- A digit string is a legal Python integer literal for `eval` unless it
has a redundant leading zero (`eval("01")` raises `SyntaxError`). -/
def evalLiteralOK (s : String) : Bool :=
  match s.data with
  | [] => false
  | [_] => true
  | c :: _ => c ≠ '0'

/-- Decimal fraction digits of `r / b` (up to 17 places), used only to
render the float produced by `eval` on a folded `DIV`. -/
def fracDigits : Nat → Nat → Nat → List Char
  | 0, _, _ => []
  | _, 0, _ => []
  | Nat.succ fuel, r, b =>
      let d := (10 * r) / b
      let r' := (10 * r) % b
      Char.ofNat ('0'.toNat + d) :: fracDigits fuel r' b

/-- Models `str(eval(f"{l}/{r}"))` for digit-string operands: Python `/`
is float division, so the result is rendered with a decimal point
(`"3.0"`, `"3.5"`, …).  The exact float formatting of Python is not
reproduced; no theorem below depends on the contents of this string, only
on the fact that folding a `DIV` yields some string. -/
def pyFloatDivRepr (a b : Nat) : String :=
  if a % b = 0 then toString (a / b) ++ ".0"
  else String.mk ((toString (a / b)).data ++ '.' :: fracDigits 17 (a % b) b)

/-- Constant folding of one arithmetic/relational opcode over two digit
strings: models `str(eval(f"{left}{sym}{right}"))` (`optimizer.py`
line 44-47).  Returns `none` where `eval` raises (`SyntaxError` on a
leading-zero literal, `ZeroDivisionError` on `DIV` by `"0"`). -/
def foldConst (op : String) (l r : String) : Option String :=
  if !(evalLiteralOK l && evalLiteralOK r) then Option.none
  else
    let a := digitsToNat l
    let b := digitsToNat r
    if op = "PLUS" then Option.some (toString (a + b))
    else if op = "MINUS" then Option.some (toString ((a : Int) - (b : Int)))
    else if op = "MUL" then Option.some (toString (a * b))
    else if op = "DIV" then
      if b = 0 then Option.none else Option.some (pyFloatDivRepr a b)
    else if op = "EQ" then Option.some (if a = b then "True" else "False")
    else if op = "NE" then Option.some (if a ≠ b then "True" else "False")
    else if op = "GT" then Option.some (if b < a then "True" else "False")
    else if op = "LT" then Option.some (if a < b then "True" else "False")
    else if op = "GE" then Option.some (if b ≤ a then "True" else "False")
    else Option.some (if a ≤ b then "True" else "False")

/-- One iteration of the optimizer's first pass (`optimizer.py`
lines 21-67): state is `(temp_map, optimized)`.  `none` models an
exception escaping `eval`. -/
def pass1Step (st : TMap × List Instr) (i : Instr) : Option (TMap × List Instr) :=
  let M := st.1
  let acc := st.2
  if i.op ∈ ctrlOps then
    Option.some (M, acc ++ [⟨i.op, resolveObj M i.a1, resolveObj M i.a2, i.res⟩])
  else if i.op = "MOV" then
    let src := resolveObj M i.a1
    if tempDest i.res then
      match i.res with
      | Option.some r => Option.some (SMap.insert M r src, acc)
      | Option.none => Option.some (M, acc)
    else
      Option.some (M, acc ++ [⟨"MOV", src, Py.none, i.res⟩])
  else if i.op ∈ arithOps then
    let left := resolveObj M i.a1
    let right := resolveObj M i.a2
    if digitOperand left && digitOperand right then
      match left, right with
      | Py.str ls, Py.str rs =>
          match foldConst i.op ls rs with
          | Option.none => Option.none
          | Option.some folded =>
              if tempDest i.res then
                match i.res with
                | Option.some r => Option.some (SMap.insert M r (Py.str folded), acc)
                | Option.none => Option.some (M, acc)
              else
                Option.some (M, acc ++ [⟨"MOV", Py.str folded, Py.none, i.res⟩])
      | _, _ => Option.none
    else
      Option.some (M, acc ++ [⟨i.op, left, right, i.res⟩])
  else if i.op = "RET" then
    Option.some (M, acc ++ [⟨"RET", resolveObj M i.a1, Py.none, Option.none⟩])
  else if i.op = "PRINT" then
    Option.some (M, acc ++ [⟨"PRINT", resolveObj M i.a1, Py.none, Option.none⟩])
  else
    Option.some (M, acc ++ [i])

/-- The optimizer's second pass (`optimizer.py` lines 70-75): rewrite
`MOV tN, _, dest` where `tN` is in the final map. -/
def pass2 (M : TMap) (l : List Instr) : List Instr :=
  l.map fun i =>
    if i.op = "MOV" then
      match i.a1 with
      | Py.str s =>
          match SMap.lookup M s with
          | Option.some v => ⟨"MOV", v, Py.none, i.res⟩
          | Option.none => i
      | _ => i
    else i

/-- The first-pass loop `for op, a1, a2, res in self.tac` threading
`(temp_map, optimized)`. -/
def pass1 : List Instr → TMap × List Instr → Option (TMap × List Instr)
  | [], st => Option.some st
  | i :: rest, st =>
      match pass1Step st i with
      | Option.none => Option.none
      | Option.some st' => pass1 rest st'

/-- `Optimizer.optimize` (`optimizer.py` lines 13-76). -/
def optimize (tac : List Instr) : Option (List Instr) :=
  match pass1 tac (([] : TMap), ([] : List Instr)) with
  | Option.none => Option.none
  | Option.some (M, out) => Option.some (pass2 M out)

/-! ## TAC interpreter (`main.py`, class `TACInterpreter`) -/

/-- A call frame's environment: variable/temp name → value. -/
abbrev Env := SMap Py

/-- Interpreter state: the stack of environments (head = newest frame,
matching iteration over `reversed(self.env_stack)`), the process-wide
parameter stack, and the captured output lines. -/
structure St where
  stack : List Env
  params : List Py
  output : List String
deriving Repr

/-- `TACInterpreter._is_string_literal` (`main.py` lines 89-93). -/
def isStrLit (s : String) : Bool :=
  s.length ≥ 2 && s.data.head? = Option.some '"' && s.data.getLast? = Option.some '"'

/-- Python `val[1:-1]`: strip the first and last character. -/
def stripQuotes (s : String) : String :=
  String.mk ((s.data.drop 1).dropLast

)

/-- The frame walk in `get_val_from_env` (`main.py` lines 120-127):
`for env in reversed(self.env_stack): if val in env: return env[val]`,
defaulting to integer 0. -/
def lookupChain (stack : List Env) (s : String) : Py :=
  match stack with
  | [] => Py.int 0
  | env :: rest =>
      match SMap.lookup env s with
      | Option.some v => v
      | Option.none => lookupChain rest s

/-- `TACInterpreter.get_val_from_env` (`main.py` lines 95-127).  The
passed `env` parameter is unused by the source, which searches
`self.env_stack`; accordingly this takes only the stack. -/
def getVal (stack : List Env) (v : Py) : Py :=
  match v with
  | Py.none => Py.int 0
  | Py.int n => Py.int n
  | Py.str s =>
      if isStrLit s then Py.str (stripQuotes s)
      else
        match pyInt? s with
        | Option.some n => Py.int n
        | Option.none =>
            if stack.isEmpty then Py.int 0
            else lookupChain stack s

/-- `TACInterpreter._ensure_int` (`main.py` lines 129-137): ints pass
through; strings are converted when they parse as integers, otherwise a
`RuntimeError` is raised. -/
def ensureInt (v : Py) (opName : String) : Except String Int :=
  match v with
  | Py.str s =>
      match pyInt? s with
      | Option.some n => Except.ok n
      | Option.none =>
          Except.error ("[Runtime] Cannot use string value " ++ "\x27" ++ s ++ "\x27"
            ++ " in numeric operation " ++ "\x27" ++ opName ++ "\x27")
  | Py.int n => Except.ok n
  | Py.none => Except.ok 0

/-- Python `str(x)` on interpreter values. -/
def pyStr (v : Py) : String :=
  match v with
  | Py.none => "None"
  | Py.int n => toString n
  | Py.str s => s

/-- Evaluation of one arithmetic/comparison opcode on already-resolved
values (`main.py` lines 186-214).  `EQ`/`NE` compare as strings when
either side is a string; the rest are strict-integer (`DIV` is Python
`//`, floor division, with result 0 on divisor 0). -/
def applyArith (op : String) (l r : Py) : Except String Py :=
  if op = "EQ" || op = "NE" then
    match l, r with
    | Py.str _, _ | _, Py.str _ =>
        Except.ok (Py.int (if op = "EQ" then (if pyStr l = pyStr r then 1 else 0)
                           else (if pyStr l = pyStr r then 0 else 1)))
    | _, _ =>
        match ensureInt l op with
        | Except.error e => Except.error e
        | Except.ok a =>
            match ensureInt r op with
            | Except.error e => Except.error e
            | Except.ok b =>
                Except.ok (Py.int (if op = "EQ" then (if a = b then 1 else 0)
                                   else (if a = b then 0 else 1)))
  else
    match ensureInt l op with
    | Except.error e => Except.error e
    | Except.ok a =>
        match ensureInt r op with
        | Except.error e => Except.error e
        | Except.ok b =>
            if op = "PLUS" then Except.ok (Py.int (a + b))
            else if op = "MINUS" then Except.ok (Py.int (a - b))
            else if op = "MUL" then Except.ok (Py.int (a * b))
            else if op = "DIV" then
              Except.ok (Py.int (if b ≠ 0 then Int.fdiv a b else 0))
            else if op = "GT" then Except.ok (Py.int (if b < a then 1 else 0))
            else if op = "LT" then Except.ok (Py.int (if a < b then 1 else 0))
            else if op = "GE" then Except.ok (Py.int (if b ≤ a then 1 else 0))
            else if op = "LE" then Except.ok (Py.int (if a ≤ b then 1 else 0))
            else Except.error "unreachable opcode"

/-- Label/function index maps built by `build_indices` (`main.py`
lines 82-87): keyed by the instruction's `a1` object, later definitions
overwrite earlier ones (dict assignment). -/
abbrev PIdx := List (Py × Nat)

def pidxLookup (m : PIdx) (k : Py) : Option Nat :=
  match m with
  | [] => Option.none
  | (k', v) :: rest => if k' = k then Option.some v else pidxLookup rest k

/-- Python truthiness of a `Py` value (`if a1:`). -/
def pyTruthy (v : Py) : Bool :=
  match v with
  | Py.none => false
  | Py.int n => n ≠ 0
  | Py.str s => s ≠ ""

/-- `build_indices`: one pass over the TAC collecting `LABEL`/`FUNC`
offsets; prepending the later entry makes later definitions win, like
dict overwrite. -/
def buildIdx (tac : List Instr) (opName : String) : PIdx :=
  (tac.enum.filter fun p => p.2.op = opName && pyTruthy p.2.a1).foldl
    (fun m p => (p.2.a1, p.1) :: m) []

/-- Execution context: the TAC plus the two prebuilt indices. -/
structure Ctx where
  tac : List Instr
  labels : PIdx
  funcs : PIdx

/-- Outcome of running a function body: fuel exhaustion (the source has
no fuel; this models nontermination / unbounded recursion), a raised
`RuntimeError`/`ValueError`, or a return value with the state after the
frame was popped. -/
inductive Outcome where
  | timeout : Outcome
  | err (msg : String) : Outcome
  | ret (v : Py) (σ : St) : Outcome
deriving Repr

/-- Write into the current (top) frame: `env[k] = v`.  The top frame is
aliased with the local `env` of the running `run_func` invocation. -/
def setTopVar (σ : St) (k : String) (v : Py) : St :=
  match σ.stack with
  | [] => σ
  | env :: rest => { σ with stack := SMap.insert env k v :: rest }

/-- `env.get k` on the current frame. -/
def topLookup (σ : St) (k : String) : Option Py :=
  match σ.stack with
  | [] => Option.none
  | env :: _ => SMap.lookup env k

/-- Pop the current frame (`self.env_stack.pop()`). -/
def popFrame (σ : St) : St :=
  { σ with stack := σ.stack.drop 1 }

/-- Parse the `CALL` argument count: `int(a2) if a2 is not None else 0`
(`main.py` line 223); a non-numeric string raises `ValueError`. -/
def argcOf (a2 : Py) : Option Int :=
  match a2 with
  | Py.none => Option.some 0
  | Py.int n => Option.some n
  | Py.str s => pyInt? s

/-- Python slice split `L[:j], L[j:]` at the (possibly negative) index
`j`, used for `self.params[-argc:]` plus the matching `del`. -/
def pySliceSplit (l : List Py) (j : Int) : List Py × List Py :=
  let n : Int := l.length
  let norm : Nat := (if j < 0 then max 0 (n + j) else min n j).toNat
  (l.take norm, l.drop norm)

/-- `CALL` argument hand-off (`main.py` lines 222-228): parse `argc`,
and when it is truthy slice the last `argc` entries off the global
parameter stack. -/
def popCallArgs (σ : St) (a2 : Py) : Option (List Py × St) :=
  match argcOf a2 with
  | Option.none => Option.none
  | Option.some argc =>
      if argc = 0 then Option.some ([], σ)
      else
        let (keep, args) := pySliceSplit σ.params (-argc)
        Option.some (args, { σ with params := keep })

/-- Bind `PARAM_DECL` names to arguments in order (`main.py`
lines 154-162), returning the environment and how many instructions were
scanned.  Non-string `PARAM_DECL` operands would be bound under non-string
dict keys, which no lookup in the source can observe, so they are
skipped. -/
def bindParams (rest : List Instr) (args : List Py) (idx : Nat) (env : Env) : Env × Nat :=
  match rest with
  | [] => (env, 0)
  | i :: tl =>
      if i.op = "PARAM_DECL" then
        let env' :=
          match i.a1 with
          | Py.str pname =>
              SMap.insert env pname (match args.get? idx with
                | Option.some a => a
                | Option.none => Py.int 0)
          | _ => env
        let (envF, k) := bindParams tl args (idx + 1) env'
        (envF, k + 1)
      else (env, 0)

mutual

/-- `TACInterpreter.run_func` (`main.py` lines 139-275): locate the
function, bind parameters, push a frame and execute the body. -/
def runFunc (fuel : Nat) (ctx : Ctx) (fname : Py) (args : List Py) (σ : St) : Outcome :=
  match fuel with
  | 0 => Outcome.timeout
  | Nat.succ n =>
      match pidxLookup ctx.funcs fname with
      | Option.none =>
          Outcome.err ("[Runtime] Function " ++ "\x27" ++ pyStr fname ++ "\x27" ++ " not found")
      | Option.some fstart =>
          let (env, k) := bindParams (ctx.tac.drop (fstart + 1)) args 0 []
          execBody n ctx (fstart + 1 + k) { σ with stack := env :: σ.stack }

/-- The `while pc < len(self.tac)` dispatch loop of `run_func`
(`main.py` lines 169-275). -/
def execBody (fuel : Nat) (ctx : Ctx) (pc : Nat) (σ : St) : Outcome :=
  match fuel with
  | 0 => Outcome.timeout
  | Nat.succ n =>
      match ctx.tac.get? pc with
      | Option.none => Outcome.ret (Py.int 0) (popFrame σ)
      | Option.some i =>
          if i.op = "END_FUNC" then Outcome.ret (Py.int 0) (popFrame σ)
          else if i.op = "MOV" then
            let v := getVal σ.stack i.a1
            match i.res with
            | Option.some r => execBody n ctx (pc + 1) (setTopVar σ r v)
            | Option.none => execBody n ctx (pc + 1) σ
          else if i.op ∈ arithOps then
            match applyArith i.op (getVal σ.stack i.a1) (getVal σ.stack i.a2) with
            | Except.error e => Outcome.err e
            | Except.ok v =>
                match i.res with
                | Option.some r => execBody n ctx (pc + 1) (setTopVar σ r v)
                | Option.none => execBody n ctx (pc + 1) σ
          else if i.op = "PARAM" then
            execBody n ctx (pc + 1) { σ with params := σ.params ++ [getVal σ.stack i.a1] }
          else if i.op = "CALL" then
            match popCallArgs σ i.a2 with
            | Option.none => Outcome.err "ValueError: invalid literal for int()"
            | Option.some (args, σmid) =>
                match runFunc n ctx i.a1 args σmid with
                | Outcome.timeout => Outcome.timeout
                | Outcome.err e => Outcome.err e
                | Outcome.ret v σ' => execBody n ctx (pc + 1) (setTopVar σ' "ret" v)
          else if i.op = "POP" then
            match i.res with
            | Option.some r =>
                execBody n ctx (pc + 1)
                  (setTopVar σ r (match topLookup σ "ret" with
                    | Option.some v => v
                    | Option.none => Py.int 0))
            | Option.none => execBody n ctx (pc + 1) σ
          else if i.op = "PRINT" then
            execBody n ctx (pc + 1) { σ with output := σ.output ++ [pyStr (getVal σ.stack i.a1)] }
          else if i.op = "IFZ_GOTO" then
            match ensureInt (getVal σ.stack i.a1) "IFZ_GOTO" with
            | Except.error e => Outcome.err e
            | Except.ok c =>
                if c = 0 then
                  let target :=
                    match i.res with
                    | Option.some r => pidxLookup ctx.labels (Py.str r)
                    | Option.none => Option.none
                  execBody n ctx (match target with
                    | Option.some t => t
                    | Option.none => pc) σ
                else execBody n ctx (pc + 1) σ
          else if i.op = "GOTO" then
            execBody n ctx (match pidxLookup ctx.labels i.a1 with
              | Option.some t => t
              | Option.none => pc) σ
          else if i.op = "RET" then
            Outcome.ret (getVal σ.stack i.a1) (popFrame σ)
          else
            execBody n ctx (pc + 1) σ

end

/-- Result of `TACInterpreter.execute` (`main.py` lines 277-288):
captured output lines plus `main`'s return value. -/
inductive ExecRes where
  | timeout : ExecRes
  | err (msg : String) : ExecRes
  | ok (output : List String) (ret : Py) : ExecRes
deriving DecidableEq, Repr

/-- Build the context for a TAC program. -/
def mkCtx (tac : List Instr) : Ctx :=
  ⟨tac, buildIdx tac "LABEL", buildIdx tac "FUNC"⟩

/-- `TACInterpreter.execute`: build indices, require `main`, run it. -/
def execMain (fuel : Nat) (tac : List Instr) : ExecRes :=
  let ctx := mkCtx tac
  if (pidxLookup ctx.funcs (Py.str "main")).isNone then
    ExecRes.err "[Runtime] main() not found"
  else
    match runFunc fuel ctx (Py.str "main") [] ⟨[], [], []⟩ with
    | Outcome.timeout => ExecRes.timeout
    | Outcome.err e => ExecRes.err e
    | Outcome.ret v σ => ExecRes.ok σ.output v

/-! ## AST (`parser.py` node classes) -/

/-- Expression nodes.  `Number.value` is `int(tok.value)`; `String.value`
has its quotes stripped; `BinOp.op` is the operator token type. -/
inductive Expr where
  | num (n : Int) : Expr
  | strLit (s : String) : Expr
  | var (name : String) : Expr
  | binop (op : String) (l r : Expr) : Expr
  | call (name : String) (args : List Expr) : Expr
deriving Repr

/-- Statement nodes.  `If.else_body` is `None` or a list (`Option`);
a bare function call statement is `scall`. -/
inductive Stmt where
  | decl (name : String) (value : Option Expr) : Stmt
  | assign (name : String) (value : Expr) : Stmt
  | ret (value : Expr) : Stmt
  | sprint (value : Expr) : Stmt
  | sif (cond : Expr) (thenB : List Stmt) (elseB : Option (List Stmt)) : Stmt
  | swhile (cond : Expr) (body : List Stmt) : Stmt
  | scall (name : String) (args : List Expr) : Stmt
deriving Repr

/-- A `Function` node: name, formal parameters, body. -/
structure FuncDef where
  name : String
  params : List String
  body : List Stmt
deriving Repr

/-- A `Program` node is its list of functions. -/
abbrev ProgramAst := List FuncDef

/-! ## TAC generator (`codegen.py`) -/

/-- Code generator state: emitted code plus the two fresh-name counters. -/
structure CG where
  code : List Instr
  tempc : Nat
  labelc : Nat
deriving Repr

/-- `new_temp` (`codegen.py` lines 17-19): `f"t{self.temp_count}"` after
incrementing.  Built from an explicit `'t'` head so the leading
character is definitionally visible. -/
def newTemp (c : CG) : String × CG :=
  (String.mk ('t' :: (toString (c.tempc + 1)).data), { c with tempc := c.tempc + 1 })

/-- `new_label` (`codegen.py` lines 21-23). -/
def newLabel (base : String) (c : CG) : String × CG :=
  (base ++ toString (c.labelc + 1), { c with labelc := c.labelc + 1 })

/-- `emit` appends one quadruple. -/
def emit (c : CG) (op : String) (a1 a2 : Py) (res : Option String) : CG :=
  { c with code := c.code ++ [⟨op, a1, a2, res⟩] }

mutual

/-- `generate_expression` (`codegen.py` lines 88-120).  Note that a
`Number` is emitted with its Python `int` value in the operand slot. -/
def genExpr (e : Expr) (c : CG) : String × CG :=
  match e with
  | Expr.num n =>
      let (t, c1) := newTemp c
      (t, emit c1 "MOV" (Py.int n) Py.none (Option.some t))
  | Expr.strLit s =>
      let (t, c1) := newTemp c
      (t, emit c1 "MOV" (Py.str ("\"" ++ s ++ "\"")) Py.none (Option.some t))
  | Expr.var name => (name, c)
  | Expr.binop op l r =>
      let (lv, c1) := genExpr l c
      let (rv, c2) := genExpr r c1
      let (t, c3) := newTemp c2
      (t, emit c3 op (Py.str lv) (Py.str rv) (Option.some t))
  | Expr.call name args =>
      let c1 := genArgs args c
      let c2 := emit c1 "CALL" (Py.str name) (Py.int args.length) Option.none
      let (t, c3) := newTemp c2
      (t, emit c3 "POP" Py.none Py.none (Option.some t))

/-- Per-argument loop of `FuncCall` lowering: each argument is lowered
and immediately followed by its `PARAM`. -/
def genArgs (args : List Expr) (c : CG) : CG :=
  match args with
  | [] => c
  | a :: rest =>
      let (v, c1) := genExpr a c
      genArgs rest (emit c1 "PARAM" (Py.str v) Py.none Option.none)

end

mutual

/-- `generate_statement` (`codegen.py` lines 39-86). -/
def genStmt (s : Stmt) (c : CG) : CG :=
  match s with
  | Stmt.decl name value =>
      (match value with
       | Option.some v =>
           let (val, c1) := genExpr v c
           emit c1 "MOV" (Py.str val) Py.none (Option.some name)
       | Option.none => c)
  | Stmt.assign name v =>
      let (val, c1) := genExpr v c
      emit c1 "MOV" (Py.str val) Py.none (Option.some name)
  | Stmt.ret v =>
      let (val, c1) := genExpr v c
      emit c1 "RET" (Py.str val) Py.none Option.none
  | Stmt.sprint v =>
      let (val, c1) := genExpr v c
      emit c1 "PRINT" (Py.str val) Py.none Option.none
  | Stmt.sif cond thenB elseB =>
      let (cv, c1) := genExpr cond c
      let (elseL, c2) := newLabel "ELSE" c1
      let (endL, c3) := newLabel "ENDIF" c2
      let c4 := emit c3 "IFZ_GOTO" (Py.str cv) Py.none (Option.some elseL)
      let c5 := genBody thenB c4
      let c6 := emit c5 "GOTO" (Py.str endL) Py.none Option.none
      let c7 := emit c6 "LABEL" (Py.str elseL) Py.none Option.none
      let c8 :=
        match elseB with
        | Option.some stmts => genBody stmts c7
        | Option.none => c7
      emit c8 "LABEL" (Py.str endL) Py.none Option.none
  | Stmt.swhile cond body =>
      let (startL, c1) := newLabel "WHILE_START" c
      let (endL, c2) := newLabel "WHILE_END" c1
      let c3 := emit c2 "LABEL" (Py.str startL) Py.none Option.none
      let (cv, c4) := genExpr cond c3
      let c5 := emit c4 "IFZ_GOTO" (Py.str cv) Py.none (Option.some endL)
      let c6 := genBody body c5
      let c7 := emit c6 "GOTO" (Py.str startL) Py.none Option.none
      emit c7 "LABEL" (Py.str endL) Py.none Option.none
  | Stmt.scall name args =>
      (genExpr (Expr.call name args) c).2

/-- Loop over a statement list. -/
def genBody (l : List Stmt) (c : CG) : CG :=
  match l with
  | [] => c
  | s :: rest => genBody rest (genStmt s c)

end

/-- One function's lowering inside `generate` (`codegen.py` lines 29-36). -/
def genFunc (f : FuncDef) (c : CG) : CG :=
  let c1 := emit c "FUNC" (Py.str f.name) Py.none Option.none
  let c2 := f.params.foldl (fun acc p => emit acc "PARAM_DECL" (Py.str p) Py.none Option.none) c1
  let c3 := genBody f.body c2
  emit c3 "END_FUNC" (Py.str f.name) Py.none Option.none

/-- `CodeGenerator.generate`. -/
def generate (ast : ProgramAst) : List Instr :=
  (ast.foldl (fun c f => genFunc f c) ⟨[], 0, 0⟩).code

/-! ## Lexer (`lexical.py`) -/

/-- A token record `(type, value, line, col)`. -/
structure Token where
  type : String
  value : String
  line : Nat
  col : Nat
deriving DecidableEq, Repr

/-- Identifier head character: `[A-Za-z_]`. -/
def isIdentStart (c : Char) : Bool :=
  ('A' ≤ c && c ≤ 'Z') || ('a' ≤ c && c ≤ 'z') || c = '_'

/-- Identifier continuation character: `\w`. -/
def isIdentChar (c : Char) : Bool := isIdentStart c || isDigitChar c

/-- The reserved-keyword table (`lexical.py` lines 64-71). -/
def keywordKind (s : String) : Option String :=
  if s = "int" then Option.some "INT"
  else if s = "return" then Option.some "RETURN"
  else if s = "if" then Option.some "IF"
  else if s = "else" then Option.some "ELSE"
  else if s = "while" then Option.some "WHILE"
  else if s = "print" then Option.some "PRINT"
  else Option.none

/-- The lexical-error message of the `MISMATCH` rule. -/
def lexErr (c : Char) (line : Nat) : String :=
  "Unexpected character " ++ "\x27" ++ String.mk [c] ++ "\x27" ++ " at line " ++ toString line

/-- The tokenizer loop (`lexical.py` lines 77-111): Python's
`re.finditer` over the ordered alternation of `TOKEN_SPEC`, i.e. at each
position the first rule that matches wins and consumes greedily.
`COMMENT` precedes `DIV`, two-character operators precede their
one-character prefixes, `NEWLINE`/`SKIP` are discarded, and any
unmatched character raises `SyntaxError`. -/
def tokenizeAux : Nat → List Char → Nat → Nat → List Token → Except String (List Token)
  | 0, _, _, _, _ => Except.error "lexer fuel exhausted"
  | Nat.succ fuel, chars, line, col, acc =>
      match chars with
      | [] => Except.ok (acc ++ [⟨"EOF", "", line, 1⟩])
      | '/' :: '/' :: rest =>
          let body := rest.takeWhile (fun c => c ≠ '\n')
          tokenizeAux fuel (rest.drop body.length) line (col + 2 + body.length) acc
      | '"' :: rest =>
          let content := rest.takeWhile (fun c => c ≠ '"' && c ≠ '\n')
          (match rest.drop content.length with
           | '"' :: tl =>
               tokenizeAux fuel tl line (col + content.length + 2)
                 (acc ++ [⟨"STRING", String.mk content, line, col⟩])
           | _ => Except.error (lexErr '"' line))
      | '\n' :: rest => tokenizeAux fuel rest (line + 1) 1 acc
      | '=' :: '=' :: rest =>
          tokenizeAux fuel rest line (col + 2) (acc ++ [⟨"EQ", "==", line, col⟩])
      | '!' :: '=' :: rest =>
          tokenizeAux fuel rest line (col + 2) (acc ++ [⟨"NE", "!=", line, col⟩])
      | '<' :: '=' :: rest =>
          tokenizeAux fuel rest line (col + 2) (acc ++ [⟨"LE", "<=", line, col⟩])
      | '>' :: '=' :: rest =>
          tokenizeAux fuel rest line (col + 2) (acc ++ [⟨"GE", ">=", line, col⟩])
      | c :: rest =>
          if isDigitChar c then
            let ds := rest.takeWhile isDigitChar
            tokenizeAux fuel (rest.drop ds.length) line (col + 1 + ds.length)
              (acc ++ [⟨"NUMBER", String.mk (c :: ds), line, col⟩])
          else if isIdentStart c then
            let ws := rest.takeWhile isIdentChar
            let word := String.mk (c :: ws)
            let kind :=
              match keywordKind word with
              | Option.some k => k
              | Option.none => "ID"
            tokenizeAux fuel (rest.drop ws.length) line (col + 1 + ws.length)
              (acc ++ [⟨kind, word, line, col⟩])
          else if c = '=' then
            tokenizeAux fuel rest line (col + 1) (acc ++ [⟨"ASSIGN", "=", line, col⟩])
          else if c = '<' then
            tokenizeAux fuel rest line (col + 1) (acc ++ [⟨"LT", "<", line, col⟩])
          else if c = '>' then
            tokenizeAux fuel rest line (col + 1) (acc ++ [⟨"GT", ">", line, col⟩])
          else if c = '+' then
            tokenizeAux fuel rest line (col + 1) (acc ++ [⟨"PLUS", "+", line, col⟩])
          else if c = '-' then
            tokenizeAux fuel rest line (col + 1) (acc ++ [⟨"MINUS", "-", line, col⟩])
          else if c = '*' then
            tokenizeAux fuel rest line (col + 1) (acc ++ [⟨"MUL", "*", line, col⟩])
          else if c = '/' then
            tokenizeAux fuel rest line (col + 1) (acc ++ [⟨"DIV", "/", line, col⟩])
          else if c = '(' then
            tokenizeAux fuel rest line (col + 1) (acc ++ [⟨"LPAREN", "(", line, col⟩])
          else if c = ')' then
            tokenizeAux fuel rest line (col + 1) (acc ++ [⟨"RPAREN", ")", line, col⟩])
          else if c = '{' then
            tokenizeAux fuel rest line (col + 1) (acc ++ [⟨"LBRACE", String.mk [c], line, col⟩])
          else if c = '}' then
            tokenizeAux fuel rest line (col + 1) (acc ++ [⟨"RBRACE", String.mk [c], line, col⟩])
          else if c = ',' then
            tokenizeAux fuel rest line (col + 1) (acc ++ [⟨"COMMA", ",", line, col⟩])
          else if c = ';' then
            tokenizeAux fuel rest line (col + 1) (acc ++ [⟨"SEMI", ";", line, col⟩])
          else if c = ' ' || c = '\t' then
            tokenizeAux fuel rest line (col + 1) acc
          else Except.error (lexErr c line)

/-- `tokenize(code)`: every rule consumes at least one character, so
`length + 1` fuel always suffices. -/
def tokenize (src : String) : Except String (List Token) :=
  tokenizeAux (src.length + 1) src.data 1 1 []

/-! ## Parser (`parser.py`, class `Parser`) -/

/-- Parser state: the token list and the cursor `pos`. -/
structure PSt where
  toks : List Token
  pos : Nat
deriving Repr

/-- `current_token` / `peek` default (`parser.py` lines 56-61). -/
def eofToken : Token := ⟨"EOF", "", 0, 0⟩

def currentTok (st : PSt) : Token :=
  match st.toks.get? st.pos with
  | Option.some t => t
  | Option.none => eofToken

def peekTok (st : PSt) (off : Nat) : Token :=
  match st.toks.get? (st.pos + off) with
  | Option.some t => t
  | Option.none => eofToken

/-- `Parser.error`: `SyntaxError` with the offending position. -/
def parseErr (st : PSt) (msg : String) : String :=
  "[Line " ++ toString (currentTok st).line ++ ", Col " ++ toString (currentTok st).col ++ "] " ++ msg

/-- `Parser.eat` (`parser.py` lines 63-68): optional type check, then
advance. -/
def eat (st : PSt) (ty : Option String) : Except String (Token × PSt) :=
  let tok := currentTok st
  match ty with
  | Option.some t =>
      if tok.type ≠ t then
        Except.error (parseErr st ("Expected " ++ t ++ ", found " ++ tok.type))
      else Except.ok (tok, { st with pos := st.pos + 1 })
  | Option.none => Except.ok (tok, { st with pos := st.pos + 1 })

/-- Relational operator token types (`parser.py` line 175). -/
def relTypes : List String := ["EQ", "NE", "GT", "LT", "GE", "LE"]

mutual

/-- `Parser.parse` loop (`parser.py` lines 74-78). -/
def parseProgram : Nat → PSt → List FuncDef → Except String (ProgramAst × PSt)
  | 0, _, _ => Except.error "parser fuel exhausted"
  | Nat.succ n, st, acc =>
      if (currentTok st).type ≠ "EOF" then do
        let (f, st1) ← parseFunction n st
        parseProgram n st1 (acc ++ [f])
      else Except.ok (acc, st)

/-- `Parser.function` (`parser.py` lines 80-98). -/
def parseFunction : Nat → PSt → Except String (FuncDef × PSt)
  | 0, _ => Except.error "parser fuel exhausted"
  | Nat.succ n, st => do
      let (_, st1) ← eat st (Option.some "INT")
      let (nameTok, st2) ← eat st1 (Option.some "ID")
      let (_, st3) ← eat st2 (Option.some "LPAREN")
      let (params, st4) ←
        if (currentTok st3).type ≠ "RPAREN" then parseParams n st3 []
        else Except.ok ([], st3)
      let (_, st5) ← eat st4 (Option.some "RPAREN")
      let (_, st6) ← eat st5 (Option.some "LBRACE")
      let (body, st7) ← parseStmtsUntilRBrace n st6 []
      let (_, st8) ← eat st7 (Option.some "RBRACE")
      Except.ok (⟨nameTok.value, params, body⟩, st8)

/-- The parameter loop inside `function`. -/
def parseParams : Nat → PSt → List String → Except String (List String × PSt)
  | 0, _, _ => Except.error "parser fuel exhausted"
  | Nat.succ n, st, acc => do
      let st1 ←
        if (currentTok st).type = "INT" then do
          let (_, st') ← eat st (Option.some "INT")
          Except.ok st'
        else Except.ok st
      let (pTok, st2) ← eat st1 (Option.some "ID")
      if (currentTok st2).type = "COMMA" then do
        let (_, st3) ← eat st2 (Option.some "COMMA")
        parseParams n st3 (acc ++ [pTok.value])
      else Except.ok (acc ++ [pTok.value], st2)

/-- `while self.current_token().type != "RBRACE": body.append(self.statement())`. -/
def parseStmtsUntilRBrace : Nat → PSt → List Stmt → Except String (List Stmt × PSt)
  | 0, _, _ => Except.error "parser fuel exhausted"
  | Nat.succ n, st, acc =>
      if (currentTok st).type ≠ "RBRACE" then do
        let (s, st1) ← parseStatement n st
        parseStmtsUntilRBrace n st1 (acc ++ [s])
      else Except.ok (acc, st)

/-- `Parser.statement` (`parser.py` lines 100-110). -/
def parseStatement : Nat → PSt → Except String (Stmt × PSt)
  | 0, _ => Except.error "parser fuel exhausted"
  | Nat.succ n, st =>
      let t := (currentTok st).type
      if t = "INT" then parseDeclaration n st
      else if t = "ID" && (peekTok st 1).type = "LPAREN" then do
        let (fc, st1) ← parseFuncCall n st
        let (_, st2) ← eat st1 (Option.some "SEMI")
        match fc with
        | Expr.call name args => Except.ok (Stmt.scall name args, st2)
        | _ => Except.error "unreachable: func_call returns a call"
      else if t = "ID" then parseAssignment n st
      else if t = "RETURN" then parseReturn n st
      else if t = "PRINT" then parsePrint n st
      else if t = "IF" then parseIf n st
      else if t = "WHILE" then parseWhile n st
      else Except.error (parseErr st ("Unexpected token " ++ t ++ " in statement"))

/-- `Parser.declaration` (`parser.py` lines 112-117). -/
def parseDeclaration : Nat → PSt → Except String (Stmt × PSt)
  | 0, _ => Except.error "parser fuel exhausted"
  | Nat.succ n, st => do
      let (_, st1) ← eat st (Option.some "INT")
      let (nameTok, st2) ← eat st1 (Option.some "ID")
      let (val, st3) ←
        if (currentTok st2).type = "ASSIGN" then do
          let (_, st') ← eat st2 (Option.some "ASSIGN")
          let (v, st'') ← parseExpression n st'
          Except.ok (Option.some v, st'')
        else Except.ok (Option.none, st2)
      let (_, st4) ← eat st3 (Option.some "SEMI")
      Except.ok (Stmt.decl nameTok.value val, st4)

/-- `Parser.assignment` (`parser.py` lines 119-122). -/
def parseAssignment : Nat → PSt → Except String (Stmt × PSt)
  | 0, _ => Except.error "parser fuel exhausted"
  | Nat.succ n, st => do
      let (nameTok, st1) ← eat st (Option.some "ID")
      let (_, st2) ← eat st1 (Option.some "ASSIGN")
      let (v, st3) ← parseExpression n st2
      let (_, st4) ← eat st3 (Option.some "SEMI")
      Except.ok (Stmt.assign nameTok.value v, st4)

/-- `Parser.return_stmt` (`parser.py` lines 124-125). -/
def parseReturn : Nat → PSt → Except String (Stmt × PSt)
  | 0, _ => Except.error "parser fuel exhausted"
  | Nat.succ n, st => do
      let (_, st1) ← eat st (Option.some "RETURN")
      let (v, st2) ← parseExpression n st1
      let (_, st3) ← eat st2 (Option.some "SEMI")
      Except.ok (Stmt.ret v, st3)

/-- `Parser.print_stmt` (`parser.py` lines 127-129). -/
def parsePrint : Nat → PSt → Except String (Stmt × PSt)
  | 0, _ => Except.error "parser fuel exhausted"
  | Nat.succ n, st => do
      let (_, st1) ← eat st (Option.some "PRINT")
      let (_, st2) ← eat st1 (Option.some "LPAREN")
      let (v, st3) ← parseExpression n st2
      let (_, st4) ← eat st3 (Option.some "RPAREN")
      let (_, st5) ← eat st4 (Option.some "SEMI")
      Except.ok (Stmt.sprint v, st5)

/-- `Parser.if_stmt` (`parser.py` lines 131-150), including the
`else if` chaining. -/
def parseIf : Nat → PSt → Except String (Stmt × PSt)
  | 0, _ => Except.error "parser fuel exhausted"
  | Nat.succ n, st => do
      let (_, st1) ← eat st (Option.some "IF")
      let (_, st2) ← eat st1 (Option.some "LPAREN")
      let (cond, st3) ← parseExpression n st2
      let (_, st4) ← eat st3 (Option.some "RPAREN")
      let (_, st5) ← eat st4 (Option.some "LBRACE")
      let (thenB, st6) ← parseStmtsUntilRBrace n st5 []
      let (_, st7) ← eat st6 (Option.some "RBRACE")
      if (currentTok st7).type = "ELSE" then do
        let (_, st8) ← eat st7 (Option.some "ELSE")
        if (currentTok st8).type = "IF" then do
          let (inner, st9) ← parseIf n st8
          Except.ok (Stmt.sif cond thenB (Option.some [inner]), st9)
        else do
          let (_, st9) ← eat st8 (Option.some "LBRACE")
          let (elseB, st10) ← parseStmtsUntilRBrace n st9 []
          let (_, st11) ← eat st10 (Option.some "RBRACE")
          Except.ok (Stmt.sif cond thenB (Option.some elseB), st11)
      else Except.ok (Stmt.sif cond thenB Option.none, st7)

/-- `Parser.while_stmt` (`parser.py` lines 152-158). -/
def parseWhile : Nat → PSt → Except String (Stmt × PSt)
  | 0, _ => Except.error "parser fuel exhausted"
  | Nat.succ n, st => do
      let (_, st1) ← eat st (Option.some "WHILE")
      let (_, st2) ← eat st1 (Option.some "LPAREN")
      let (cond, st3) ← parseExpression n st2
      let (_, st4) ← eat st3 (Option.some "RPAREN")
      let (_, st5) ← eat st4 (Option.some "LBRACE")
      let (body, st6) ← parseStmtsUntilRBrace n st5 []
      let (_, st7) ← eat st6 (Option.some "RBRACE")
      Except.ok (Stmt.swhile cond body, st7)

/-- `Parser.func_call` (`parser.py` lines 160-169). -/
def parseFuncCall : Nat → PSt → Except String (Expr × PSt)
  | 0, _ => Except.error "parser fuel exhausted"
  | Nat.succ n, st => do
      let (nameTok, st1) ← eat st (Option.some "ID")
      let (_, st2) ← eat st1 (Option.some "LPAREN")
      let (args, st3) ←
        if (currentTok st2).type ≠ "RPAREN" then parseArgs n st2 []
        else Except.ok ([], st2)
      let (_, st4) ← eat st3 (Option.some "RPAREN")
      Except.ok (Expr.call nameTok.value args, st4)

/-- The argument loop inside `func_call`. -/
def parseArgs : Nat → PSt → List Expr → Except String (List Expr × PSt)
  | 0, _, _ => Except.error "parser fuel exhausted"
  | Nat.succ n, st, acc => do
      let (e, st1) ← parseExpression n st
      if (currentTok st1).type = "COMMA" then do
        let (_, st2) ← eat st1 (Option.some "COMMA")
        parseArgs n st2 (acc ++ [e])
      else Except.ok (acc ++ [e], st1)

/-- `Parser.expression` = `relational` (`parser.py` lines 171-177). -/
def parseExpression : Nat → PSt → Except String (Expr × PSt)
  | 0, _ => Except.error "parser fuel exhausted"
  | Nat.succ n, st => do
      let (e, st1) ← parseAdditive n st
      parseRelLoop n st1 e

def parseRelLoop : Nat → PSt → Expr → Except String (Expr × PSt)
  | 0, _, _ => Except.error "parser fuel exhausted"
  | Nat.succ n, st, acc =>
      if (currentTok st).type ∈ relTypes then do
        let (opTok, st1) ← eat st Option.none
        let (r, st2) ← parseAdditive n st1
        parseRelLoop n st2 (Expr.binop opTok.type acc r)
      else Except.ok (acc, st)

/-- `Parser.additive` (`parser.py` lines 179-183). -/
def parseAdditive : Nat → PSt → Except String (Expr × PSt)
  | 0, _ => Except.error "parser fuel exhausted"
  | Nat.succ n, st => do
      let (e, st1) ← parseTerm n st
      parseAddLoop n st1 e

def parseAddLoop : Nat → PSt → Expr → Except String (Expr × PSt)
  | 0, _, _ => Except.error "parser fuel exhausted"
  | Nat.succ n, st, acc =>
      if (currentTok st).type = "PLUS" || (currentTok st).type = "MINUS" then do
        let (opTok, st1) ← eat st Option.none
        let (r, st2) ← parseTerm n st1
        parseAddLoop n st2 (Expr.binop opTok.type acc r)
      else Except.ok (acc, st)

/-- `Parser.term` (`parser.py` lines 185-189). -/
def parseTerm : Nat → PSt → Except String (Expr × PSt)
  | 0, _ => Except.error "parser fuel exhausted"
  | Nat.succ n, st => do
      let (e, st1) ← parseFactor n st
      parseTermLoop n st1 e

def parseTermLoop : Nat → PSt → Expr → Except String (Expr × PSt)
  | 0, _, _ => Except.error "parser fuel exhausted"
  | Nat.succ n, st, acc =>
      if (currentTok st).type = "MUL" || (currentTok st).type = "DIV" then do
        let (opTok, st1) ← eat st Option.none
        let (r, st2) ← parseFactor n st1
        parseTermLoop n st2 (Expr.binop opTok.type acc r)
      else Except.ok (acc, st)

/-- `Parser.factor` (`parser.py` lines 191-203). -/
def parseFactor : Nat → PSt → Except String (Expr × PSt)
  | 0, _ => Except.error "parser fuel exhausted"
  | Nat.succ n, st =>
      let tok := currentTok st
      if tok.type = "NUMBER" then do
        let (_, st1) ← eat st (Option.some "NUMBER")
        Except.ok (Expr.num (digitsToNat tok.value : Int), st1)
      else if tok.type = "STRING" then do
        let (_, st1) ← eat st (Option.some "STRING")
        Except.ok (Expr.strLit tok.value, st1)
      else if tok.type = "ID" then
        if (peekTok st 1).type = "LPAREN" then parseFuncCall n st
        else do
          let (_, st1) ← eat st (Option.some "ID")
          Except.ok (Expr.var tok.value, st1)
      else if tok.type = "LPAREN" then do
        let (_, st1) ← eat st (Option.some "LPAREN")
        let (e, st2) ← parseExpression n st1
        let (_, st3) ← eat st2 (Option.some "RPAREN")
        Except.ok (e, st3)
      else Except.error (parseErr st ("Unexpected token " ++ tok.type ++ " in expression"))

end

/-- `Parser(tokens).parse()`: run the program loop with ample fuel (the
Python recursion is bounded by the token list; the fuel here is a
modelling artifact, generous for any input this file evaluates). -/
def parseTokens (toks : List Token) : Except String ProgramAst :=
  match parseProgram (1000 + 10 * toks.length) ⟨toks, 0⟩ [] with
  | Except.error e => Except.error e
  | Except.ok (ast, _) => Except.ok ast

/-! ## Semantic analyzer (`semantic.py`) -/

/-- A quoted name inside a diagnostic message. -/
def q (s : String) : String := "\x27" ++ s ++ "\x27"

/-- `SemanticAnalyzer.error`: raise with the `Semantic Error: ` tag. -/
def semErr (msg : String) : String := "Semantic Error: " ++ msg

/-- The per-function symbol table: name → type (always `"int"`). -/
abbrev SymT := SMap String

/-- The global function table, keyed by name. -/
abbrev FTab := SMap FuncDef

/-- First pass of `analyze` (`semantic.py` lines 22-25): collect
functions, failing on duplicates. -/
def collectFuncs (fs : List FuncDef) (acc : FTab) : Except String FTab :=
  match fs with
  | [] => Except.ok acc
  | f :: rest =>
      if (SMap.lookup acc f.name).isSome then
        Except.error (semErr ("Duplicate function " ++ q f.name))
      else collectFuncs rest (SMap.insert acc f.name f)

mutual

/-- `visit_expression` (`semantic.py` lines 115-139): returns the type
string; a `BinOp` demands `"int"` on both sides regardless of operator. -/
def visitExpr : Nat → FTab → SymT → Expr → Except String String
  | 0, _, _, _ => Except.error "semantic fuel exhausted"
  | Nat.succ n, funcs, sym, e =>
      match e with
      | Expr.num _ => Except.ok "int"
      | Expr.strLit _ => Except.ok "string"
      | Expr.var name =>
          if (SMap.lookup sym name).isSome then Except.ok "int"
          else Except.error (semErr ("Use of undeclared variable " ++ q name))
      | Expr.binop op l r => do
          let lt ← visitExpr n funcs sym l
          let rt ← visitExpr n funcs sym r
          if lt ≠ "int" || rt ≠ "int" then
            Except.error (semErr ("Incompatible types in operation " ++ q op))
          else Except.ok "int"
      | Expr.call name args => do
          visitFuncCall n funcs sym name args
          Except.ok "int"

/-- `visit_funccall` (`semantic.py` lines 105-112). -/
def visitFuncCall : Nat → FTab → SymT → String → List Expr → Except String Unit
  | 0, _, _, _, _ => Except.error "semantic fuel exhausted"
  | Nat.succ n, funcs, sym, name, args =>
      match SMap.lookup funcs name with
      | Option.none => Except.error (semErr ("Call to undeclared function " ++ q name))
      | Option.some f =>
          if args.length ≠ f.params.length then
            Except.error (semErr ("Function " ++ q name ++ " expects "
              ++ toString f.params.length ++ " args, got " ++ toString args.length))
          else visitArgs n funcs sym args

def visitArgs : Nat → FTab → SymT → List Expr → Except String Unit
  | 0, _, _, _ => Except.error "semantic fuel exhausted"
  | Nat.succ n, funcs, sym, args =>
      match args with
      | [] => Except.ok ()
      | a :: rest => do
          let _ ← visitExpr n funcs sym a
          visitArgs n funcs sym rest

end

mutual

/-- `visit_statement` dispatch (`semantic.py` lines 46-103).  The symbol
table is threaded (declarations extend it); `if`/`while` bodies run on
the current table and the saved snapshot is restored afterwards. -/
def visitStmt : Nat → FTab → SymT → Stmt → Except String SymT
  | 0, _, _, _ => Except.error "semantic fuel exhausted"
  | Nat.succ n, funcs, sym, s =>
      match s with
      | Stmt.decl name value =>
          if (SMap.lookup sym name).isSome then
            Except.error (semErr ("Variable " ++ q name ++ " redeclared"))
          else do
            let sym1 := SMap.insert sym name "int"
            match value with
            | Option.some v => do
                let _ ← visitExpr n funcs sym1 v
                Except.ok sym1
            | Option.none => Except.ok sym1
      | Stmt.assign name v =>
          if (SMap.lookup sym name).isNone then
            Except.error (semErr ("Variable " ++ q name ++ " used before declaration"))
          else do
            let _ ← visitExpr n funcs sym v
            Except.ok sym
      | Stmt.ret v => do
          let _ ← visitExpr n funcs sym v
          Except.ok sym
      | Stmt.sprint v => do
          let t ← visitExpr n funcs sym v
          if t ≠ "int" && t ≠ "string" then
            Except.error (semErr ("Cannot print type " ++ q t))
          else Except.ok sym
      | Stmt.sif cond thenB elseB => do
          let _ ← visitExpr n funcs sym cond
          let _ ← visitBody n funcs sym thenB
          match elseB with
          | Option.some stmts =>
              if stmts.isEmpty then Except.ok sym
              else do
                let _ ← visitBody n funcs sym stmts
                Except.ok sym
          | Option.none => Except.ok sym
      | Stmt.swhile cond body => do
          let _ ← visitExpr n funcs sym cond
          let _ ← visitBody n funcs sym body
          Except.ok sym
      | Stmt.scall name args => do
          visitFuncCall n funcs sym name args
          Except.ok sym

/-- Sequential statement visiting, threading the symbol table. -/
def visitBody : Nat → FTab → SymT → List Stmt → Except String SymT
  | 0, _, _, _ => Except.error "semantic fuel exhausted"
  | Nat.succ n, funcs, sym, l =>
      match l with
      | [] => Except.ok sym
      | s :: rest => do
          let sym1 ← visitStmt n funcs sym s
          visitBody n funcs sym1 rest

end

/-- `visit_function` (`semantic.py` lines 32-43): fresh table, declare
parameters (duplicates fail), walk the body. -/
def visitFunction (fuel : Nat) (funcs : FTab) (f : FuncDef) : Except String Unit := do
  let sym ← f.params.foldlM (fun (acc : SymT) p =>
    if (SMap.lookup acc p).isSome then
      Except.error (semErr ("Duplicate parameter " ++ q p ++ " in function " ++ q f.name))
    else Except.ok (SMap.insert acc p "int")) ([] : SymT)
  let _ ← visitBody fuel funcs sym f.body
  Except.ok ()

/-- `SemanticAnalyzer.analyze`: collect, then analyze each function.
The fuel bounds visitor depth, a modelling artifact. -/
def analyze (ast : ProgramAst) : Except String Unit := do
  let funcs ← collectFuncs ast []
  ast.foldlM (fun _ f => visitFunction 1000 funcs f) ()

/-! ## Pipeline (`main.py`, `compile_source`) -/

deriving instance DecidableEq for Except

/-- The front half of the pipeline of `compile_source`: tokenize → parse
→ analyze → generate → optimize, producing the optimized TAC (or the
first raised error). -/
def compileOptTAC (src : String) : Except String (List Instr) :=
  match tokenize src with
  | Except.error e => Except.error e
  | Except.ok toks =>
      match parseTokens toks with
      | Except.error e => Except.error e
      | Except.ok ast =>
          match analyze ast with
          | Except.error e => Except.error e
          | Except.ok _ =>
              match optimize (generate ast) with
              | Option.none => Except.error "optimizer raised"
              | Option.some opt => Except.ok opt

/-- The full pipeline of `compile_source` up to and including execution.
The target code printer (`targetgen.py`) is a purely textual diagnostic
consumer of the optimized TAC run between optimization and execution; it
is omitted here.  `execFuel` bounds only the TAC interpreter. -/
def pipelineRun (execFuel : Nat) (src : String) : ExecRes :=
  match compileOptTAC src with
  | Except.error e => ExecRes.err e
  | Except.ok opt => execMain execFuel opt

/-! ## Concrete claim inputs and claim-specific definitions -/

/-- The scenario-6 source program (claim C1). -/
def srcC1 : String := "int main(){ int x; if(1<2){ int x; x=7; } return x; }"

/-- The scenario-5 source program (claim C4). -/
def srcC4 : String :=
  "int main()\x7b print(\"hello\"); if(\"hi\"==\"hi\")\x7b print(1); \x7d else \x7b print(0); \x7d return 0; \x7d"

/-- The scenario-1 source program, the constant-folding claim's own
example (claim C2). -/
def srcC2 : String := "int main(){ return 2+3*4; }"

/-- The optimized TAC the pipeline actually produces for `srcC2`. -/
def tacC2opt : List Instr :=
  [⟨"FUNC", Py.str "main", Py.none, Option.none⟩,
   ⟨"MUL", Py.int 3, Py.int 4, Option.some "t4"⟩,
   ⟨"PLUS", Py.int 2, Py.str "t4", Option.some "t5"⟩,
   ⟨"RET", Py.str "t5", Py.none, Option.none⟩,
   ⟨"END_FUNC", Py.str "main", Py.none, Option.none⟩]

/-- The four arithmetic opcodes of the language (`+ - * /`). -/
def arith4 : List String := ["PLUS", "MINUS", "MUL", "DIV"]

/-- Arithmetic expressions all of whose leaves are integer literals
(claim C2's quantification domain). -/
inductive IsArith : Expr → Prop where
  | num : ∀ n : Int, IsArith (Expr.num n)
  | bin : ∀ (op : String) (l r : Expr), op ∈ arith4 →
      IsArith l → IsArith r → IsArith (Expr.binop op l r)

/-- Number of `MOV` quadruples in a TAC list. -/
def countMOV (l : List Instr) : Nat := (l.filter fun i => i.op = "MOV").length

/-- Number of arithmetic (`PLUS/MINUS/MUL/DIV`) quadruples. -/
def countArith (l : List Instr) : Nat := (l.filter fun i => i.op ∈ arith4).length

/-- Number of binary operators in an expression. -/
def nBin : Expr → Nat
  | Expr.binop _ l r => nBin l + nBin r + 1
  | _ => 0

/-- Shape of the quadruples code generation emits for a pure arithmetic
expression: `MOV` of an integer object into a fresh temp, or an
arithmetic opcode whose operands are temp names and whose result is a
fresh temp. -/
def EShape (i : Instr) : Prop :=
  (i.op = "MOV" ∧ (∃ n, i.a1 = Py.int n) ∧ tempDest i.res = true)
  ∨ (i.op ∈ arith4
      ∧ (∃ s, i.a1 = Py.str s ∧ pyStartsWithT s = true)
      ∧ (∃ s, i.a2 = Py.str s ∧ pyStartsWithT s = true)
      ∧ tempDest i.res = true)

/-- Invariant on the optimizer's `temp_map` while it processes such
code: every recorded value is an integer object (never a digit string). -/
def MInv (M : TMap) : Prop := ∀ p ∈ M, ∃ n : Int, p.2 = Py.int n
/-- A TAC program whose `GOTO` targets a label no `LABEL` defines
(claim C3). -/
def tacC3 : List Instr :=
  [⟨"FUNC", Py.str "main", Py.none, Option.none⟩,
   ⟨"GOTO", Py.str "L9", Py.none, Option.none⟩,
   ⟨"END_FUNC", Py.str "main", Py.none, Option.none⟩]

/-- A TAC program applying `DIV` to -7 and 2 (claim C5). -/
def tacC5 : List Instr :=
  [⟨"FUNC", Py.str "main", Py.none, Option.none⟩,
   ⟨"DIV", Py.str "-7", Py.str "2", Option.some "d"⟩,
   ⟨"RET", Py.str "d", Py.none, Option.none⟩,
   ⟨"END_FUNC", Py.str "main", Py.none, Option.none⟩]

/-- A TAC program comparing the string values "3" and "1" with the
strict-integer `GT` (claim C8). -/
def tacC8 : List Instr :=
  [⟨"FUNC", Py.str "main", Py.none, Option.none⟩,
   ⟨"GT", Py.str "\"3\"", Py.str "\"1\"", Option.some "r"⟩,
   ⟨"RET", Py.str "r", Py.none, Option.none⟩,
   ⟨"END_FUNC", Py.str "main", Py.none, Option.none⟩]

/-- Spec-side definition for claim C7, following the spec's wording of
operand lookup (section 4.7): look the name up in the current frame; if
absent there, walk the remaining frames from newest to oldest and return
the first binding found; if nowhere found, integer 0.  To be compared
with the code-side `getVal`. -/
def specLookup : List Env → String → Py
  | [], _ => Py.int 0
  | cur :: rest, s =>
      match SMap.lookup cur s with
      | Option.some v => v
      | Option.none => lookupChain rest s

/-- A two-function TAC program for claim C10: `f` returns 7; `main`
calls it.  The claim theorems are applied to it in the witness. -/
def tacC10 : List Instr :=
  [⟨"FUNC", Py.str "f", Py.none, Option.none⟩,
   ⟨"RET", Py.str "7", Py.none, Option.none⟩,
   ⟨"END_FUNC", Py.str "f", Py.none, Option.none⟩,
   ⟨"FUNC", Py.str "main", Py.none, Option.none⟩,
   ⟨"CALL", Py.str "f", Py.int 0, Option.none⟩,
   ⟨"POP", Py.none, Py.none, Option.some "x"⟩,
   ⟨"RET", Py.str "x", Py.none, Option.none⟩,
   ⟨"END_FUNC", Py.str "main", Py.none, Option.none⟩]

/-- Characterisation of the quadruples the optimizer's first pass can
emit (claim C9): an emitted `MOV` never targets a `t…` name and has a
cleared `a2`; an emitted arithmetic opcode failed the digit-string fold
guard; an emitted `RET`/`PRINT` has cleared `a2`/`res`. -/
def Emitted (i : Instr) : Prop :=
  (i.op = "MOV" → i.a2 = Py.none ∧ tempDest i.res = false)
  ∧ (i.op ∈ arithOps → (digitOperand i.a1 && digitOperand i.a2) = false)
  ∧ ((i.op = "RET" ∨ i.op = "PRINT") → i.a2 = Py.none ∧ i.res = Option.none)

/-! ## Claim C1: scenario 6 through the full pipeline -/


/-- The front half of the pipeline rejects `srcC1` during semantic
analysis. -/
theorem compileC1_err :
    compileOptTAC srcC1 = Except.error (semErr ("Variable " ++ q "x" ++ " redeclared")) := by
  decide!

/-- The same, lifted to the full pipeline: the error is raised before
execution, so the interpreter fuel is irrelevant. -/
theorem pipelineC1_err (n : Nat) :
    pipelineRun n srcC1 = ExecRes.err (semErr ("Variable " ++ q "x" ++ " redeclared")) := by
  unfold pipelineRun
  rw [compileC1_err]

/-- C1 counterexample: the pipeline on
`int main(){ int x; if(1<2){ int x; x=7; } return x; }` does not succeed
with exit value 0 and no output — for no interpreter fuel does it produce
that result (it raises a semantic error instead, see
`c1_amended_semantic_rejection`). -/
theorem c1_counterexample : ¬ ∃ n, pipelineRun n srcC1 = ExecRes.ok [] (Py.int 0) := by
  rintro ⟨n, h⟩
  rw [pipelineC1_err n] at h
  exact ExecRes.noConfusion h

/-- C1 (amended): on the scenario-6 program the pipeline fails at
semantic analysis with `Variable 'x' redeclared` — `visit_declaration`
rejects the inner block-local `x` because the outer `x` is still in the
(snapshot-restored, but non-shadowing) symbol table, exactly as §4.3 of
the spec states for redeclaration; execution is never reached, so no
exit value is produced at all. -/
theorem c1_amended_semantic_rejection :
    ∀ n, pipelineRun n srcC1 = ExecRes.err (semErr ("Variable " ++ q "x" ++ " redeclared")) :=
  fun n => pipelineC1_err n

/-! ## Claim C4: string literals under `==` in the semantic analyzer -/


/-- The front half of the pipeline raises a semantic error on the
string comparison of scenario 5. -/
theorem compileC4_err :
    compileOptTAC srcC4 = Except.error (semErr ("Incompatible types in operation " ++ q "EQ")) := by
  decide!

/-- C4: `analyze()` does not accept a string literal as one side of
`==`: on scenario 5 the pipeline raises
`Semantic Error: Incompatible types in operation 'EQ'` for every
interpreter fuel (the failure is before execution).  `visit_expression`
requires `"int"` on both sides of every `BinOp`, `==`/`!=` included,
although the interpreter (`main.py` lines 186-194) deliberately supports
string `EQ`/`NE` comparison and the module header announces string
literal support — the semantic check contradicts that documented
support, so the code, not the claim, is judged wrong. -/
theorem c4_semantic_rejects_string_eq :
    ∀ n, pipelineRun n srcC4
      = ExecRes.err (semErr ("Incompatible types in operation " ++ q "EQ")) := by
  intro n
  unfold pipelineRun
  rw [compileC4_err]

/-! ## Claim C2: the constant-folding law -/

/-- C2 counterexample: on the claim's own example `return 2+3*4;`, the
optimizer's output still contains the arithmetic opcodes `MUL` and
`PLUS` mentioning the literal operands (as integer objects) — nothing is
folded, because `codegen.py` emits `Number` operands as Python ints
while the folder only recognises digit strings. -/
theorem c2_counterexample :
    compileOptTAC srcC2 = Except.ok tacC2opt
    ∧ (⟨"MUL", Py.int 3, Py.int 4, Option.some "t4"⟩ : Instr) ∈ tacC2opt := by
  constructor
  · decide!
  · decide

/-- A lookup hit comes from a member of the association list. -/
theorem SMap.lookup_mem {α : Type} {m : SMap α} {k : String} {v : α}
    (h : SMap.lookup m k = Option.some v) : (k, v) ∈ m := by
  induction m with
  | nil => simp [SMap.lookup] at h
  | cons p rest ih =>
      rcases p with ⟨k', v'⟩
      by_cases hk : k' = k
      · subst hk
        simp [SMap.lookup] at h
        subst h
        exact List.mem_cons_self _ _
      · simp [SMap.lookup, hk] at h
        exact List.mem_cons_of_mem _ (ih h)

/-- A name starting with `t` is never an all-digits string. -/
theorem pyStartsWithT_not_digit {s : String} (h : pyStartsWithT s = true) :
    pyIsDigit s = false := by
  unfold pyStartsWithT at h
  unfold pyIsDigit
  cases hd : s.data with
  | nil => rw [hd] at h; simp at h
  | cons c rest =>
      rw [hd] at h
      simp at h
      subst h
      simp [List.all_cons, isDigitChar]

/-- Under `MInv`, resolving a temp name never produces a digit string,
so the fold guard `left.isdigit() and right.isdigit()` fails. -/
theorem digitOperand_resolveT {M : TMap} (hM : MInv M) {s : String}
    (hs : pyStartsWithT s = true) :
    digitOperand (resolveObj M (Py.str s)) = false := by
  unfold resolveObj resolveName
  cases hl : SMap.lookup M s with
  | none =>
      simp [hl, digitOperand]
      exact pyStartsWithT_not_digit hs
  | some v =>
      obtain ⟨n, hn⟩ := hM _ (SMap.lookup_mem hl)
      simp at hn
      simp [hl, hn, digitOperand]

theorem countMOV_append (a b : List Instr) : countMOV (a ++ b) = countMOV a + countMOV b := by
  simp [countMOV, List.filter_append]

theorem countArith_append (a b : List Instr) :
    countArith (a ++ b) = countArith a + countArith b := by
  simp [countArith, List.filter_append]

/-- The first pass processes a concatenation sequentially. -/
theorem pass1_append (A B : List Instr) (st : TMap × List Instr) :
    pass1 (A ++ B) st =
      (match pass1 A st with
       | Option.none => Option.none
       | Option.some st' => pass1 B st') := by
  induction A generalizing st with
  | nil => simp [pass1]
  | cons i rest ih =>
      simp only [List.cons_append, pass1]
      cases pass1Step st i with
      | none => simp
      | some st' => simp [ih]

theorem MInv_insert {M : TMap} (hM : MInv M) (r : String) (n : Int) :
    MInv (SMap.insert M r (Py.int n)) := by
  intro p hp
  rcases List.mem_cons.mp hp with h | h
  · exact ⟨n, by rw [h]⟩
  · exact hM _ h

/-- Running the first pass over `EShape` code: the integer-object `MOV`s
are recorded in `temp_map` (never emitted), the arithmetic opcodes are
emitted unfolded (the digit-string guard can never hold), and the map
invariant is preserved. -/
theorem pass1_eshape : ∀ (L : List Instr), (∀ i ∈ L, EShape i) →
    ∀ (M : TMap) (acc : List Instr), MInv M →
    ∃ M' out, pass1 L (M, acc) = Option.some (M', out)
      ∧ MInv M'
      ∧ countMOV out = countMOV acc
      ∧ countArith out = countArith acc + countArith L := by
  intro L
  induction L with
  | nil =>
      intro _ M acc hM
      exact ⟨M, acc, rfl, hM, rfl, by simp [countArith]⟩
  | cons i rest ih =>
      intro hall M acc hM
      have hi : EShape i := hall i (List.mem_cons_self _ _)
      have hrest : ∀ j ∈ rest, EShape j := fun j hj => hall j (List.mem_cons_of_mem _ hj)
      obtain ⟨op, a1, a2, res⟩ := i
      rcases hi with ⟨hop, ⟨n, ha1⟩, hres⟩ | ⟨hop4, ⟨s1, ha1, hs1⟩, ⟨s2, ha2, hs2⟩, hres⟩
      · simp only at hop ha1 hres
        subst hop ha1
        obtain ⟨r, hr⟩ : ∃ r, res = Option.some r := by
          cases hr : res with
          | none => rw [hr] at hres; simp [tempDest] at hres
          | some r => exact ⟨r, rfl⟩
        subst hr
        have hstep : pass1Step (M, acc) ⟨"MOV", Py.int n, a2, Option.some r⟩
            = Option.some (SMap.insert M r (Py.int n), acc) := by
          simp [pass1Step, hres, ctrlOps, resolveObj]
        obtain ⟨M', out, hrun, hM', hmov, hart⟩ :=
          ih hrest (SMap.insert M r (Py.int n)) acc (MInv_insert hM r n)
        refine ⟨M', out, ?_, hM', hmov, ?_⟩
        · simp [pass1, hstep, hrun]
        · rw [hart]
          have h2 : countArith (Instr.mk "MOV" (Py.int n) a2 (Option.some r) :: rest)
              = countArith rest := by
            simp [countArith, List.filter_cons, arith4]
          omega
      · simp only at hop4 ha1 ha2 hres
        subst ha1 ha2
        have hctrl : ¬ op ∈ ctrlOps := by
          simp [arith4] at hop4
          rcases hop4 with rfl | rfl | rfl | rfl <;> simp [ctrlOps]
        have hmovne : ¬ op = "MOV" := by
          simp [arith4] at hop4
          rcases hop4 with rfl | rfl | rfl | rfl <;> simp
        have harith : op ∈ arithOps := by
          simp [arith4] at hop4
          rcases hop4 with rfl | rfl | rfl | rfl <;> simp [arithOps]
        have hdig : digitOperand (resolveObj M (Py.str s1)) = false :=
          digitOperand_resolveT hM hs1
        have hstep : pass1Step (M, acc) ⟨op, Py.str s1, Py.str s2, res⟩
            = Option.some (M, acc ++ [⟨op, resolveObj M (Py.str s1), resolveObj M (Py.str s2), res⟩]) := by
          simp [pass1Step, hctrl, hmovne, harith, hdig]
        obtain ⟨M', out, hrun, hM', hmov, hart⟩ :=
          ih hrest M (acc ++ [⟨op, resolveObj M (Py.str s1), resolveObj M (Py.str s2), res⟩]) hM
        refine ⟨M', out, ?_, hM', ?_, ?_⟩
        · simp [pass1, hstep, hrun]
        · rw [hmov, countMOV_append]
          simp [countMOV, List.filter_cons, hmovne]
        · rw [hart, countArith_append]
          have h1 : countArith [Instr.mk op (resolveObj M (Py.str s1)) (resolveObj M (Py.str s2)) res] = 1 := by
            simp [countArith, List.filter_cons, hop4]
          have h2 : countArith (Instr.mk op (Py.str s1) (Py.str s2) res :: rest)
              = 1 + countArith rest := by
            simp [countArith, List.filter_cons, hop4]
            omega
          omega

theorem pyStartsWithT_mk (xs : List Char) : pyStartsWithT (String.mk ('t' :: xs)) = true := rfl

/-- Code generation for a pure arithmetic expression returns a temp name
and emits only `EShape` quadruples, one arithmetic opcode per operator. -/
theorem genExpr_shape : ∀ (e : Expr), IsArith e → ∀ c : CG,
    pyStartsWithT (genExpr e c).1 = true
    ∧ ∃ Δ, (genExpr e c).2.code = c.code ++ Δ
        ∧ (∀ i ∈ Δ, EShape i)
        ∧ countArith Δ = nBin e := by
  intro e h
  induction h with
  | num n =>
      intro c
      constructor
      · simp [genExpr, newTemp, pyStartsWithT_mk]
      · refine ⟨[⟨"MOV", Py.int n, Py.none, Option.some (String.mk ('t' :: (toString (c.tempc + 1)).data))⟩], ?_, ?_, ?_⟩
        · simp [genExpr, newTemp, emit]
        · intro i hi
          simp at hi
          subst hi
          exact Or.inl ⟨rfl, ⟨n, rfl⟩, by simp [tempDest, pyStartsWithT_mk]⟩
        · simp [countArith, List.filter_cons, arith4, nBin]
  | bin op l r hop hl hr ihl ihr =>
      intro c
      rcases hgl : genExpr l c with ⟨lv, c1⟩
      rcases hgr : genExpr r c1 with ⟨rv, c2⟩
      obtain ⟨hlt, Δl, hlcode, hlsh, hlcnt⟩ := ihl c
      obtain ⟨hrt, Δr, hrcode, hrsh, hrcnt⟩ := ihr c1
      rw [hgl] at hlt hlcode
      rw [hgr] at hrt hrcode
      simp only at hlt hlcode hrt hrcode
      have hmain : genExpr (Expr.binop op l r) c
          = (String.mk ('t' :: (toString (c2.tempc + 1)).data),
             emit { c2 with tempc := c2.tempc + 1 } op (Py.str lv) (Py.str rv)
               (Option.some (String.mk ('t' :: (toString (c2.tempc + 1)).data)))) := by
        simp [genExpr, hgl, hgr, newTemp]
      constructor
      · rw [hmain]
        exact pyStartsWithT_mk _
      · refine ⟨Δl ++ Δr
          ++ [⟨op, Py.str lv, Py.str rv, Option.some (String.mk ('t' :: (toString (c2.tempc + 1)).data))⟩],
          ?_, ?_, ?_⟩
        · rw [hmain]
          simp [emit, hrcode, hlcode]
        · intro i hi
          rcases List.mem_append.mp hi with hi' | hi'
          · rcases List.mem_append.mp hi' with h2 | h2
            · exact hlsh i h2
            · exact hrsh i h2
          · simp at hi'
            subst hi'
            exact Or.inr ⟨hop, ⟨lv, rfl, hlt⟩, ⟨rv, rfl, hrt⟩, by simp [tempDest, pyStartsWithT_mk]⟩
        · rw [countArith_append, countArith_append, hlcnt, hrcnt]
          have : countArith [Instr.mk op (Py.str lv) (Py.str rv)
              (Option.some (String.mk ('t' :: (toString (c2.tempc + 1)).data)))] = 1 := by
            simp [countArith, List.filter_cons, hop]
          rw [this]
          simp [nBin]

/-- The second pass preserves every opcode, hence both counters. -/
theorem pass2_counts (M : TMap) (l : List Instr) :
    countMOV (pass2 M l) = countMOV l ∧ countArith (pass2 M l) = countArith l := by
  induction l with
  | nil => simp [pass2, countMOV, countArith]
  | cons i rest ih =>
      have hop : ∀ j : Instr, (if j.op = "MOV" then
          (match j.a1 with
           | Py.str s =>
               (match SMap.lookup M s with
                | Option.some v => Instr.mk "MOV" v Py.none j.res
                | Option.none => j)
           | _ => j)
          else j).op = j.op := by
        intro j
        by_cases hj : j.op = "MOV"
        · simp [hj]
          cases j.a1 with
          | str s =>
              cases hls : SMap.lookup M s with
              | some v => simp [hls, hj]
              | none => simp [hls, hj]
          | none => simp [hj]
          | int k => simp [hj]
        · simp [hj]
      constructor
      · have := (ih).1
        simp only [pass2, List.map_cons] at this ⊢
        simp [countMOV, List.filter_cons, hop i, this]
        by_cases hi : i.op = "MOV" <;> simp [hi, countMOV] at this ⊢ <;> omega
      · have := (ih).2
        simp only [pass2, List.map_cons] at this ⊢
        simp [countArith, List.filter_cons, hop i, this]
        by_cases hi : i.op ∈ arith4 <;> simp [hi, countArith] at this ⊢ <;> omega

/-- C2 (amended): for every arithmetic expression `e` over integer
literals, compiling `int main(){ return e; }` and optimizing yields TAC
with NO `MOV` at all (so the claim's "at most one MOV" holds), but with
exactly one arithmetic opcode per operator of `e` — the expression is
not constant-folded away, because `codegen.py` emits integer literals as
integer objects while the folder (`optimizer.py` line 44) only folds
digit strings. -/
theorem c2_amended_no_fold : ∀ e : Expr, IsArith e →
    ∃ out, optimize (generate [⟨"main", [], [Stmt.ret e]⟩]) = Option.some out
      ∧ countMOV out = 0 ∧ countArith out = nBin e := by
  intro e he
  rcases hge : genExpr e ⟨[⟨"FUNC", Py.str "main", Py.none, Option.none⟩], 0, 0⟩ with ⟨val, cA⟩
  obtain ⟨hvt, Δ, hcode, hsh, hcnt⟩ :=
    genExpr_shape e he ⟨[⟨"FUNC", Py.str "main", Py.none, Option.none⟩], 0, 0⟩
  rw [hge] at hvt hcode
  simp only at hvt hcode
  have hgen : generate [⟨"main", [], [Stmt.ret e]⟩]
      = [⟨"FUNC", Py.str "main", Py.none, Option.none⟩] ++ (Δ
        ++ ([⟨"RET", Py.str val, Py.none, Option.none⟩]
            ++ [⟨"END_FUNC", Py.str "main", Py.none, Option.none⟩])) := by
    simp [generate, genFunc, genBody, genStmt, emit, hge, hcode]
  have hstepF : pass1 [(⟨"FUNC", Py.str "main", Py.none, Option.none⟩ : Instr)] (([] : TMap), ([] : List Instr))
      = Option.some ([], [⟨"FUNC", Py.str "main", Py.none, Option.none⟩]) := by
    simp [pass1, pass1Step, ctrlOps, resolveObj, resolveName, SMap.lookup]
  obtain ⟨M', out1, hrun, hM', hmov1, hart1⟩ :=
    pass1_eshape Δ hsh [] [⟨"FUNC", Py.str "main", Py.none, Option.none⟩] (by intro p hp; simp at hp)
  have hstepR : pass1 [(⟨"RET", Py.str val, Py.none, Option.none⟩ : Instr)] (M', out1)
      = Option.some (M', out1 ++ [⟨"RET", resolveObj M' (Py.str val), Py.none, Option.none⟩]) := by
    simp [pass1, pass1Step, ctrlOps, arithOps]
  have hstepE : pass1 [(⟨"END_FUNC", Py.str "main", Py.none, Option.none⟩ : Instr)]
      (M', out1 ++ [⟨"RET", resolveObj M' (Py.str val), Py.none, Option.none⟩])
      = Option.some (M', (out1 ++ [⟨"RET", resolveObj M' (Py.str val), Py.none, Option.none⟩])
          ++ [⟨"END_FUNC", resolveObj M' (Py.str "main"), resolveObj M' Py.none, Option.none⟩]) := by
    simp [pass1, pass1Step, ctrlOps]
  have hfull : pass1 (generate [⟨"main", [], [Stmt.ret e]⟩]) (([] : TMap), ([] : List Instr))
      = Option.some (M', (out1 ++ [⟨"RET", resolveObj M' (Py.str val), Py.none, Option.none⟩])
          ++ [⟨"END_FUNC", resolveObj M' (Py.str "main"), resolveObj M' Py.none, Option.none⟩]) := by
    rw [hgen, pass1_append, hstepF]
    dsimp only
    rw [pass1_append, hrun]
    dsimp only
    rw [pass1_append, hstepR]
    dsimp only
    exact hstepE
  refine ⟨pass2 M' ((out1 ++ [⟨"RET", resolveObj M' (Py.str val), Py.none, Option.none⟩])
          ++ [⟨"END_FUNC", resolveObj M' (Py.str "main"), resolveObj M' Py.none, Option.none⟩]), ?_, ?_, ?_⟩
  · simp [optimize, hfull]
  · rw [(pass2_counts _ _).1, countMOV_append, countMOV_append]
    have hF : countMOV [(⟨"FUNC", Py.str "main", Py.none, Option.none⟩ : Instr)] = 0 := by
      simp [countMOV]
    rw [hF] at hmov1
    have hR : countMOV [Instr.mk "RET" (resolveObj M' (Py.str val)) Py.none Option.none] = 0 := by
      simp [countMOV]
    have hE : countMOV [Instr.mk "END_FUNC" (resolveObj M' (Py.str "main"))
        (resolveObj M' Py.none) Option.none] = 0 := by
      simp [countMOV]
    rw [hmov1, hR, hE]
  · rw [(pass2_counts _ _).2, countArith_append, countArith_append]
    have hF : countArith [(⟨"FUNC", Py.str "main", Py.none, Option.none⟩ : Instr)] = 0 := by
      simp [countArith, arith4]
    rw [hF] at hart1
    have h2 : countArith [Instr.mk "RET" (resolveObj M' (Py.str val)) Py.none Option.none] = 0 := by
      simp [countArith, arith4]
    have h3 : countArith [Instr.mk "END_FUNC" (resolveObj M' (Py.str "main")) (resolveObj M' Py.none) Option.none] = 0 := by
      simp [countArith, arith4]
    rw [h2, h3, hart1, hcnt]
    omega

/-- Witness for `c2_amended_no_fold` at the expression `2+3*4`. -/
theorem c2_amended_no_fold_witness :
    ∃ out, optimize (generate [⟨"main", [],
        [Stmt.ret (Expr.binop "PLUS" (Expr.num 2) (Expr.binop "MUL" (Expr.num 3) (Expr.num 4)))]⟩])
      = Option.some out ∧ countMOV out = 0 ∧ countArith out = 2 :=
  c2_amended_no_fold _
    (IsArith.bin _ _ _ (by simp [arith4])
      (IsArith.num 2)
      (IsArith.bin _ _ _ (by simp [arith4]) (IsArith.num 3) (IsArith.num 4)))

/-! ## Claim C3: jumps to undefined labels -/

/-- A `GOTO` whose label is undefined leaves the program counter
unchanged (`pc = self.labels.get(a1, pc); continue`), so the same jump
re-executes forever: no fuel suffices. -/
theorem goto_undefined_loops (ctx : Ctx) (pc : Nat) (a1 a2 : Py) (res : Option String)
    (hget : ctx.tac.get? pc = Option.some ⟨"GOTO", a1, a2, res⟩)
    (hlab : pidxLookup ctx.labels a1 = Option.none) :
    ∀ (n : Nat) (σ : St), execBody n ctx pc σ = Outcome.timeout := by
  intro n
  induction n with
  | zero => intro σ; rfl
  | succ m ih =>
      intro σ
      rw [execBody, hget]
      simp only [arithOps, hlab]
      norm_num
      exact ih σ

/-- Same for `IFZ_GOTO` when its condition evaluates to integer 0 and
the target label is undefined. -/
theorem ifz_undefined_loops (ctx : Ctx) (pc : Nat) (a1 a2 : Py) (res : Option String)
    (hget : ctx.tac.get? pc = Option.some ⟨"IFZ_GOTO", a1, a2, res⟩)
    (σ : St)
    (hcond : ensureInt (getVal σ.stack a1) "IFZ_GOTO" = Except.ok 0)
    (hlab : (match res with
             | Option.some r => pidxLookup ctx.labels (Py.str r)
             | Option.none => Option.none) = Option.none) :
    ∀ n : Nat, execBody n ctx pc σ = Outcome.timeout := by
  intro n
  induction n with
  | zero => rfl
  | succ m ih =>
      rw [execBody, hget]
      simp only [arithOps, hcond, hlab]
      norm_num
      exact ih

/-- C3 (amended): a `GOTO` or taken `IFZ_GOTO` whose target label is not
defined by any `LABEL` does NOT raise a RuntimeError — `labels.get(x, pc)`
falls back to the current program counter and the `continue` re-executes
the very same jump, so execution never terminates (modelled as running
out of every fuel). -/
theorem c3_amended_undefined_label_loops :
    (∀ (ctx : Ctx) (pc : Nat) (a1 a2 : Py) (res : Option String) (σ : St),
      ctx.tac.get? pc = Option.some ⟨"GOTO", a1, a2, res⟩ →
      pidxLookup ctx.labels a1 = Option.none →
      ∀ n : Nat, execBody n ctx pc σ = Outcome.timeout)
    ∧ (∀ (ctx : Ctx) (pc : Nat) (a1 a2 : Py) (res : Option String) (σ : St),
      ctx.tac.get? pc = Option.some ⟨"IFZ_GOTO", a1, a2, res⟩ →
      ensureInt (getVal σ.stack a1) "IFZ_GOTO" = Except.ok 0 →
      (match res with
       | Option.some r => pidxLookup ctx.labels (Py.str r)
       | Option.none => Option.none) = Option.none →
      ∀ n : Nat, execBody n ctx pc σ = Outcome.timeout) :=
  ⟨fun ctx pc a1 a2 res σ hget hlab n => goto_undefined_loops ctx pc a1 a2 res hget hlab n σ,
   fun ctx pc a1 a2 res σ hget hcond hlab n => ifz_undefined_loops ctx pc a1 a2 res hget σ hcond hlab n⟩

/-- Witness for `c3_amended_undefined_label_loops` on concrete programs:
`GOTO L9` in `tacC3`, and `IFZ_GOTO 0 → L9`, both with no `LABEL L9`. -/
theorem c3_amended_undefined_label_loops_witness :
    execBody 5 (mkCtx tacC3) 1 ⟨[[]], [], []⟩ = Outcome.timeout
    ∧ execBody 5 (mkCtx [⟨"FUNC", Py.str "main", Py.none, Option.none⟩,
        ⟨"IFZ_GOTO", Py.str "0", Py.none, Option.some "L9"⟩,
        ⟨"END_FUNC", Py.str "main", Py.none, Option.none⟩]) 1 ⟨[[]], [], []⟩ = Outcome.timeout :=
  ⟨c3_amended_undefined_label_loops.1 (mkCtx tacC3) 1 (Py.str "L9") Py.none Option.none
     ⟨[[]], [], []⟩ rfl rfl 5,
   c3_amended_undefined_label_loops.2 (mkCtx [⟨"FUNC", Py.str "main", Py.none, Option.none⟩,
        ⟨"IFZ_GOTO", Py.str "0", Py.none, Option.some "L9"⟩,
        ⟨"END_FUNC", Py.str "main", Py.none, Option.none⟩])
     1 (Py.str "0") Py.none (Option.some "L9") ⟨[[]], [], []⟩ rfl rfl rfl 5⟩

/-- C3 counterexample: running `tacC3` — whose `GOTO L9` targets an
undefined label — never raises a RuntimeError at any fuel: the claimed
fatal error does not exist (execution spins instead, see the amended
theorem). -/
theorem c3_counterexample : ¬ ∃ n msg, execMain n tacC3 = ExecRes.err msg := by
  have hloop : ∀ (n : Nat) (σ : St), execBody n (mkCtx tacC3) 1 σ = Outcome.timeout :=
    goto_undefined_loops (mkCtx tacC3) 1 (Py.str "L9") Py.none Option.none rfl rfl
  rintro ⟨n, msg, h⟩
  cases n with
  | zero => simp [show execMain 0 tacC3 = ExecRes.timeout from rfl] at h
  | succ m =>
      have hstep : execMain (m + 1) tacC3
          = (match execBody m (mkCtx tacC3) 1 ⟨[[]], [], []⟩ with
             | Outcome.timeout => ExecRes.timeout
             | Outcome.err e => ExecRes.err e
             | Outcome.ret v σ => ExecRes.ok σ.output v) := rfl
      rw [hstep, hloop m _] at h
      exact ExecRes.noConfusion h

/-! ## Claim C5: DIV semantics -/

/-- C5 counterexample: the interpreter's `DIV` applied to -7 and 2 does
not yield -3 (truncation toward zero) at any fuel — `tacC5` returns -4
instead (Python `//` floor division; see the amended theorem). -/
theorem c5_counterexample : ¬ ∃ n, execMain n tacC5 = ExecRes.ok [] (Py.int (-3)) := by
  have hbig : ∀ q, execMain (q + 3) tacC5 = ExecRes.ok [] (Py.int (-4)) := fun q => rfl
  rintro ⟨n, h⟩
  rcases n with _ | (_ | (_ | q))
  · simp [show execMain 0 tacC5 = ExecRes.timeout from rfl] at h
  · simp [show execMain 1 tacC5 = ExecRes.timeout from rfl] at h
  · simp [show execMain 2 tacC5 = ExecRes.timeout from rfl] at h
  · rw [hbig q] at h
    exact absurd h (by decide)

/-- C5 (amended): for all integer operand values `a` and `b`, the
interpreter's `DIV` opcode computes FLOOR division (Python `//`,
rounding toward negative infinity) and yields 0 without failing when `b`
is 0.  For a positive divisor the result `q` is characterised by
`b*q ≤ a < b*(q+1)`; in particular `DIV` on -7 and 2 yields -4, not the
-3 of truncated division. -/
theorem c5_amended_div_floor : ∀ a b : Int,
    applyArith "DIV" (Py.int a) (Py.int b)
      = Except.ok (Py.int (if b ≠ 0 then Int.fdiv a b else 0))
    ∧ (0 < b → b * Int.fdiv a b ≤ a ∧ a < b * (Int.fdiv a b + 1)) := by
  intro a b
  constructor
  · simp [applyArith, ensureInt]
  · intro hb
    rw [Int.fdiv_eq_ediv _ (le_of_lt hb)]
    have h1 : 0 ≤ a % b := Int.emod_nonneg a (ne_of_gt hb)
    have h2 : a % b < b := Int.emod_lt_of_pos a hb
    have h3 : b * (a / b) + a % b = a := Int.ediv_add_emod a b
    constructor
    · linarith
    · rw [mul_add, mul_one]
      linarith

/-- Witness for `c5_amended_div_floor` at -7 and 2. -/
theorem c5_amended_div_floor_witness :
    applyArith "DIV" (Py.int (-7)) (Py.int 2) = Except.ok (Py.int (-4))
    ∧ (2 * (-4 : Int) ≤ -7 ∧ (-7 : Int) < 2 * (-4 + 1)) := by
  obtain ⟨h1, h2⟩ := c5_amended_div_floor (-7) 2
  refine ⟨h1.trans (by decide), ?_⟩
  have h3 := h2 (by decide)
  rw [show Int.fdiv (-7) 2 = -4 from by decide] at h3
  exact h3

/-! ## Claim C8: string operands in strict-integer comparisons -/

/-- C8 counterexample: in `tacC8` both `GT` operands evaluate to string
values ("3" and "1", quoted literals), yet execution never raises a
RuntimeError at any fuel — `_ensure_int` converts numeric-looking
strings, and the program returns 1. -/
theorem c8_counterexample : ¬ ∃ n msg, execMain n tacC8 = ExecRes.err msg := by
  have hbig : ∀ q, execMain (q + 3) tacC8 = ExecRes.ok [] (Py.int 1) := fun q => rfl
  rintro ⟨n, msg, h⟩
  rcases n with _ | (_ | (_ | q))
  · simp [show execMain 0 tacC8 = ExecRes.timeout from rfl] at h
  · simp [show execMain 1 tacC8 = ExecRes.timeout from rfl] at h
  · simp [show execMain 2 tacC8 = ExecRes.timeout from rfl] at h
  · rw [hbig q] at h
    exact ExecRes.noConfusion h

/-- C8 (amended): in `GT/LT/GE/LE`, a string operand raises the fatal
RuntimeError exactly when Python `int(v)` fails on it (`_ensure_int`
first attempts the conversion, so whitespace-padded or
underscore-grouped numerals like `" 5"` and `"1_0"` are silently
converted, not rejected); only strings `int()` cannot parse are fatal. -/
theorem c8_amended_nonnumeric_string_fatal : ∀ op ∈ ["GT", "LT", "GE", "LE"], ∀ s : String,
    (pyInt? s = Option.none →
      (∀ r : Py, applyArith op (Py.str s) r
          = Except.error ("[Runtime] Cannot use string value " ++ "\x27" ++ s ++ "\x27"
              ++ " in numeric operation " ++ "\x27" ++ op ++ "\x27"))
      ∧ (∀ (l : Py) (k : Int), ensureInt l op = Except.ok k →
          applyArith op l (Py.str s)
          = Except.error ("[Runtime] Cannot use string value " ++ "\x27" ++ s ++ "\x27"
              ++ " in numeric operation " ++ "\x27" ++ op ++ "\x27")))
    ∧ (∀ n : Int, pyInt? s = Option.some n →
        ensureInt (Py.str s) op = Except.ok n) := by
  intro op hop s
  constructor
  · intro hs
    have h1 : ensureInt (Py.str s) op
        = Except.error ("[Runtime] Cannot use string value " ++ "\x27" ++ s ++ "\x27"
            ++ " in numeric operation " ++ "\x27" ++ op ++ "\x27") := by
      simp [ensureInt, hs]
    constructor
    · intro r
      fin_cases hop <;> simp [applyArith, h1]
    · intro l k hk
      fin_cases hop <;> simp [applyArith, h1, hk]
  · intro n hn
    simp [ensureInt, hn]

/-- Witness for `c8_amended_nonnumeric_string_fatal`: the opcode `GT`
with the non-numeric string "abc" on either side is fatal, while the
whitespace-padded `" 5"` and underscore-grouped `"1_0"` convert. -/
theorem c8_amended_nonnumeric_string_fatal_witness :
    (applyArith "GT" (Py.str "abc") (Py.int 1)
      = Except.error ("[Runtime] Cannot use string value " ++ "\x27" ++ "abc" ++ "\x27"
          ++ " in numeric operation " ++ "\x27" ++ "GT" ++ "\x27")
    ∧ applyArith "GT" (Py.int 5) (Py.str "abc")
      = Except.error ("[Runtime] Cannot use string value " ++ "\x27" ++ "abc" ++ "\x27"
          ++ " in numeric operation " ++ "\x27" ++ "GT" ++ "\x27"))
    ∧ ensureInt (Py.str " 5") "GT" = Except.ok 5
    ∧ ensureInt (Py.str "1_0") "GT" = Except.ok 10 := by
  obtain ⟨h1, h2⟩ := (c8_amended_nonnumeric_string_fatal "GT" (by simp) "abc").1 (by decide)
  exact ⟨⟨h1 (Py.int 1), h2 (Py.int 5) 5 rfl⟩,
    (c8_amended_nonnumeric_string_fatal "GT" (by simp) " 5").2 5 (by decide),
    (c8_amended_nonnumeric_string_fatal "GT" (by simp) "1_0").2 10 (by decide)⟩

/-! ## Claim C6: which MOV destinations are suppressed -/

/-- C6 (amended): pass 1 suppresses (and records in the propagation map)
exactly the `MOV`s whose destination STARTS WITH the character `t` —
this includes ordinary source-program variables such as `total`, not
only the generated temporaries `t1, t2, …`; all other `MOV`s are emitted
with their source resolved through the map. -/
theorem c6_amended_startswith_t :
    ∀ (M : TMap) (acc : List Instr) (a1 a2 : Py) (r : String),
      (pyStartsWithT r = false →
        pass1Step (M, acc) ⟨"MOV", a1, a2, Option.some r⟩
          = Option.some (M, acc ++ [⟨"MOV", resolveObj M a1, Py.none, Option.some r⟩]))
      ∧ (pyStartsWithT r = true →
        pass1Step (M, acc) ⟨"MOV", a1, a2, Option.some r⟩
          = Option.some (SMap.insert M r (resolveObj M a1), acc)) := by
  intro M acc a1 a2 r
  constructor <;> intro h <;> simp [pass1Step, ctrlOps, tempDest, h]

/-- Witness for `c6_amended_startswith_t`: destination `x` is emitted,
destination `total` is swallowed into the map. -/
theorem c6_amended_startswith_t_witness :
    pass1Step (([] : TMap), ([] : List Instr)) ⟨"MOV", Py.str "5", Py.none, Option.some "x"⟩
      = Option.some ([], [⟨"MOV", Py.str "5", Py.none, Option.some "x"⟩])
    ∧ pass1Step (([] : TMap), ([] : List Instr)) ⟨"MOV", Py.str "5", Py.none, Option.some "total"⟩
      = Option.some ([("total", Py.str "5")], []) :=
  ⟨((c6_amended_startswith_t [] [] (Py.str "5") Py.none "x").1 (by decide)).trans (by decide),
   ((c6_amended_startswith_t [] [] (Py.str "5") Py.none "total").2 (by decide)).trans (by decide)⟩

/-- C6 counterexample: `MOV 5, _, total` targets a source-program
variable (not a generated temporary), yet the optimizer suppresses it —
the output is empty, against the claim that such `MOV`s are emitted. -/
theorem c6_counterexample :
    optimize [⟨"MOV", Py.str "5", Py.none, Option.some "total"⟩] = Option.some []
    ∧ (⟨"MOV", Py.str "5", Py.none, Option.some "total"⟩ : Instr) ∉ ([] : List Instr) := by
  constructor
  · rfl
  · simp

/-! ## Claim C7: operand name lookup order -/

/-- C7: for a name operand (not `None`, not a quoted string literal, not
parseable as an integer), the interpreter's lookup agrees with the
spec's description: current frame first, then the remaining frames
newest → oldest, defaulting to integer 0. -/
theorem c7_name_lookup : ∀ (stack : List Env) (s : String),
    isStrLit s = false → pyInt? s = Option.none →
    getVal stack (Py.str s) = specLookup stack s := by
  intro stack s h1 h2
  cases stack with
  | nil => simp [getVal, h1, h2, specLookup]
  | cons cur rest =>
      simp only [getVal, h1, h2, specLookup, Bool.false_eq_true, if_false]
      simp [lookupChain]

/-- Witness for `c7_name_lookup`: `x` is absent in the newest frame and
bound in the two older ones; the newest of those wins (value 2). -/
theorem c7_name_lookup_witness :
    getVal [[("y", Py.int 1)], [("x", Py.int 2)], [("x", Py.int 9)]] (Py.str "x")
      = specLookup [[("y", Py.int 1)], [("x", Py.int 2)], [("x", Py.int 9)]] "x"
    ∧ specLookup [[("y", Py.int 1)], [("x", Py.int 2)], [("x", Py.int 9)]] "x" = Py.int 2 :=
  ⟨c7_name_lookup _ "x" (by decide) (by decide), by decide⟩

/-! ## Claim C10: the per-frame return register `ret` -/

/-- C10: the return register is an ordinary environment binding named
`ret`: a completed `CALL` writes the callee's return value into the
calling frame under `ret` (clobbering any existing binding — the lookup
afterwards yields the new value), and `POP` copies `env.get("ret", 0)`
into its destination. -/
theorem c10_ret_binding :
    (∀ (n : Nat) (ctx : Ctx) (pc : Nat) (σ : St) (f a2 : Py) (res : Option String)
       (args : List Py) (σmid : St) (v : Py) (σ' : St),
      ctx.tac.get? pc = Option.some ⟨"CALL", f, a2, res⟩ →
      popCallArgs σ a2 = Option.some (args, σmid) →
      runFunc n ctx f args σmid = Outcome.ret v σ' →
      execBody (n + 1) ctx pc σ = execBody n ctx (pc + 1) (setTopVar σ' "ret" v)
      ∧ (∀ (env : Env) (rest : List Env), σ'.stack = env :: rest →
          topLookup (setTopVar σ' "ret" v) "ret" = Option.some v))
    ∧ (∀ (n : Nat) (ctx : Ctx) (pc : Nat) (σ : St) (a1 a2 : Py) (r : String),
      ctx.tac.get? pc = Option.some ⟨"POP", a1, a2, Option.some r⟩ →
      execBody (n + 1) ctx pc σ
        = execBody n ctx (pc + 1) (setTopVar σ r
            (match topLookup σ "ret" with
             | Option.some v => v
             | Option.none => Py.int 0))) := by
  constructor
  · intro n ctx pc σ f a2 res args σmid v σ' hget hpop hrun
    constructor
    · rw [execBody, hget]
      simp only [arithOps, hpop, hrun]
      simp
    · intro env rest hst
      simp [setTopVar, topLookup, hst, SMap.insert, SMap.lookup]
  · intro n ctx pc σ a1 a2 r hget
    rw [execBody, hget]
    simp only [arithOps]
    simp

/-- Witness for `c10_ret_binding` on `tacC10`: the `CALL f, 0` in `main`
overwrites a pre-existing `ret ↦ 99` binding with the callee's 7, and
the following `POP x` copies the `ret` binding. -/
theorem c10_ret_binding_witness :
    execBody 6 (mkCtx tacC10) 4 ⟨[[("ret", Py.int 99)]], [], []⟩
      = execBody 5 (mkCtx tacC10) 5
          (setTopVar ⟨[[("ret", Py.int 99)]], [], []⟩ "ret" (Py.int 7))
    ∧ topLookup (setTopVar ⟨[[("ret", Py.int 99)]], [], []⟩ "ret" (Py.int 7)) "ret"
        = Option.some (Py.int 7)
    ∧ execBody 4 (mkCtx tacC10) 5 ⟨[[("ret", Py.int 7), ("ret", Py.int 99)]], [], []⟩
      = execBody 3 (mkCtx tacC10) 6
          (setTopVar ⟨[[("ret", Py.int 7), ("ret", Py.int 99)]], [], []⟩ "x"
            (match topLookup ⟨[[("ret", Py.int 7), ("ret", Py.int 99)]], [], []⟩ "ret" with
             | Option.some v => v
             | Option.none => Py.int 0)) := by
  obtain ⟨hc, hl⟩ := c10_ret_binding.1 5 (mkCtx tacC10) 4 ⟨[[("ret", Py.int 99)]], [], []⟩
    (Py.str "f") (Py.int 0) Option.none [] ⟨[[("ret", Py.int 99)]], [], []⟩ (Py.int 7)
    ⟨[[("ret", Py.int 99)]], [], []⟩ rfl rfl rfl
  exact ⟨hc, hl [("ret", Py.int 99)] [] rfl,
    c10_ret_binding.2 3 (mkCtx tacC10) 5 ⟨[[("ret", Py.int 7), ("ret", Py.int 99)]], [], []⟩
      Py.none Py.none "x" rfl⟩

/-! ## Claim C9: optimizer idempotence -/

/-- Every opcode in `ctrlOps` is distinct from the opcodes the other
branches of `pass1Step` match on. -/
theorem ctrl_op_facts : ∀ op ∈ ctrlOps,
    op ≠ "MOV" ∧ op ∉ arithOps ∧ op ≠ "RET" ∧ op ≠ "PRINT" := by
  intro op h
  fin_cases h <;> refine ⟨by decide, by decide, by decide, by decide⟩

theorem arith_op_facts : ∀ op ∈ arithOps,
    op ∉ ctrlOps ∧ op ≠ "MOV" ∧ op ≠ "RET" ∧ op ≠ "PRINT" := by
  intro op h
  fin_cases h <;> refine ⟨by decide, by decide, by decide, by decide⟩

/-- With an empty `temp_map`, `resolve` is the identity. -/
theorem resolveObj_nil : ∀ p : Py, resolveObj ([] : TMap) p = p := by
  intro p
  cases p <;> rfl

/-- A `MOV` with `None` second operand and non-temp destination is `Emitted`. -/
theorem emitted_of_mov (src : Py) (res : Option String) (h : tempDest res = false) :
    Emitted ⟨"MOV", src, Py.none, res⟩ :=
  ⟨fun _ => ⟨rfl, h⟩, fun hc => by simp [arithOps] at hc, fun hc => by simp at hc⟩

/-- Control-flow quadruples are `Emitted` unconditionally. -/
theorem emitted_of_ctrl (op : String) (h : op ∈ ctrlOps) (a1 a2 : Py) (res : Option String) :
    Emitted ⟨op, a1, a2, res⟩ := by
  obtain ⟨e1, e2, e3, e4⟩ := ctrl_op_facts op h
  exact ⟨fun hc => absurd hc e1, fun hc => absurd hc e2,
    fun hc => absurd hc (by simpa using not_or.mpr ⟨e3, e4⟩)⟩

/-- An arithmetic quadruple whose operands are not both digit strings is `Emitted`. -/
theorem emitted_of_arith (op : String) (a1 a2 : Py) (res : Option String)
    (h : op ∈ arithOps) (hd : (digitOperand a1 && digitOperand a2) = false) :
    Emitted ⟨op, a1, a2, res⟩ := by
  obtain ⟨f1, f2, f3, f4⟩ := arith_op_facts op h
  exact ⟨fun hc => absurd hc f2, fun _ => hd,
    fun hc => absurd hc (by simpa using not_or.mpr ⟨f3, f4⟩)⟩

/-- `RET` and `PRINT` quadruples with cleared second operand and result are `Emitted`. -/
theorem emitted_of_retprint (op : String) (a1 : Py) (h : op = "RET" ∨ op = "PRINT") :
    Emitted ⟨op, a1, Py.none, Option.none⟩ := by
  rcases h with rfl | rfl
  · exact ⟨fun hc => by simp at hc, fun hc => by simp [arithOps] at hc, fun _ => ⟨rfl, rfl⟩⟩
  · exact ⟨fun hc => by simp at hc, fun hc => by simp [arithOps] at hc, fun _ => ⟨rfl, rfl⟩⟩

/-- A quadruple matched by no branch of the optimizer is vacuously `Emitted`. -/
theorem emitted_of_other (op : String) (a1 a2 : Py) (res : Option String)
    (h1 : op ≠ "MOV") (h2 : op ∉ arithOps) (h3 : op ≠ "RET") (h4 : op ≠ "PRINT") :
    Emitted ⟨op, a1, a2, res⟩ :=
  ⟨fun hc => absurd hc h1, fun hc => absurd hc h2,
   fun hc => absurd hc (by simpa using not_or.mpr ⟨h3, h4⟩)⟩

/-- Appending an `Emitted` instruction preserves all-`Emitted`. -/
theorem emitted_append {acc : List Instr} {i : Instr}
    (hacc : ∀ j ∈ acc, Emitted j) (hi : Emitted i) :
    ∀ j ∈ acc ++ [i], Emitted j := by
  intro j hj
  rcases List.mem_append.mp hj with hj' | hj'
  · exact hacc j hj'
  · simp at hj'
    subst hj'
    exact hi

/-- One first-pass step only ever appends `Emitted` instructions: every
branch either drops the quadruple or emits one of the `Emitted` shapes. -/
theorem pass1Step_emitted {M : TMap} {acc : List Instr} {M' : TMap} {acc' : List Instr}
    {i : Instr} (h : pass1Step (M, acc) i = Option.some (M', acc'))
    (hacc : ∀ j ∈ acc, Emitted j) : ∀ j ∈ acc', Emitted j := by
  obtain ⟨op, a1, a2, res⟩ := i
  by_cases hctrl : op ∈ ctrlOps
  · simp only [pass1Step, hctrl, if_true] at h
    have h2 : acc' = acc ++ [⟨op, resolveObj M a1, resolveObj M a2, res⟩] :=
      (congrArg Prod.snd (Option.some.inj h)).symm
    subst h2
    exact emitted_append hacc (emitted_of_ctrl op hctrl _ _ _)
  · by_cases hmov : op = "MOV"
    · subst hmov
      by_cases htd : tempDest res = true
      · obtain ⟨r, hr⟩ : ∃ r, res = Option.some r := by
          cases hres : res with
          | none => rw [hres] at htd; simp [tempDest] at htd
          | some r => exact ⟨r, rfl⟩
        subst hr
        simp only [pass1Step, hctrl, htd] at h
        simp at h
        have h2 : acc' = acc := h.2.symm
        subst h2
        exact hacc
      · simp only [pass1Step, hctrl] at h
        simp [htd] at h
        have h2 : acc' = acc ++ [⟨"MOV", resolveObj M a1, Py.none, res⟩] := h.2.symm
        subst h2
        exact emitted_append hacc (emitted_of_mov _ _ (by simpa using htd))
    · by_cases harith : op ∈ arithOps
      · by_cases hdig : (digitOperand (resolveObj M a1) && digitOperand (resolveObj M a2)) = true
        · simp only [pass1Step, hctrl, hmov, harith, if_false, if_true, hdig] at h
          rcases hda : resolveObj M a1 with _ | k | ls
          · rw [hda] at hdig; simp [digitOperand] at hdig
          · rw [hda] at hdig; simp [digitOperand] at hdig
          · rcases hdb : resolveObj M a2 with _ | k | rs
            · rw [hdb] at hdig; simp [digitOperand] at hdig
            · rw [hdb] at hdig; simp [digitOperand] at hdig
            · rw [hda, hdb] at h
              dsimp only at h
              cases hf : foldConst op ls rs with
              | none => rw [hf] at h; exact absurd h (by simp)
              | some folded =>
                  rw [hf] at h
                  by_cases htd : tempDest res = true
                  · obtain ⟨r, hr⟩ : ∃ r, res = Option.some r := by
                      cases hres : res with
                      | none => rw [hres] at htd; simp [tempDest] at htd
                      | some r => exact ⟨r, rfl⟩
                    subst hr
                    simp [htd] at h
                    have h2 : acc' = acc := h.2.symm
                    subst h2
                    exact hacc
                  · simp [htd] at h
                    have h2 : acc' = acc ++ [⟨"MOV", Py.str folded, Py.none, res⟩] := h.2.symm
                    subst h2
                    exact emitted_append hacc (emitted_of_mov _ _ (by simpa using htd))
        · simp only [pass1Step, hctrl, hmov, harith, if_false, if_true, hdig] at h
          simp [hdig] at h
          have h2 : acc' = acc ++ [⟨op, resolveObj M a1, resolveObj M a2, res⟩] := h.2.symm
          subst h2
          exact emitted_append hacc
            (emitted_of_arith op _ _ _ harith (by simpa using hdig))
      · by_cases hret : op = "RET"
        · subst hret
          simp only [pass1Step, hctrl, hmov, harith] at h
          simp at h
          have h2 : acc' = acc ++ [⟨"RET", resolveObj M a1, Py.none, Option.none⟩] := h.2.symm
          subst h2
          exact emitted_append hacc (emitted_of_retprint _ _ (Or.inl rfl))
        · by_cases hprint : op = "PRINT"
          · subst hprint
            simp only [pass1Step, hctrl, hmov, harith] at h
            simp at h
            have h2 : acc' = acc ++ [⟨"PRINT", resolveObj M a1, Py.none, Option.none⟩] := h.2.symm
            subst h2
            exact emitted_append hacc (emitted_of_retprint _ _ (Or.inr rfl))
          · simp only [pass1Step, hctrl, hmov, harith, hret, hprint] at h
            simp at h
            have h2 : acc' = acc ++ [⟨op, a1, a2, res⟩] := h.2.symm
            subst h2
            exact emitted_append hacc (emitted_of_other op _ _ _ hmov harith hret hprint)

/-- The whole first pass, started from an all-`Emitted` accumulator,
produces an all-`Emitted` instruction list. -/
theorem pass1_emitted : ∀ (L : List Instr) (M : TMap) (acc : List Instr) (M' : TMap)
    (out : List Instr), pass1 L (M, acc) = Option.some (M', out) →
    (∀ j ∈ acc, Emitted j) → ∀ j ∈ out, Emitted j := by
  intro L
  induction L with
  | nil =>
      intro M acc M' out h hacc
      simp [pass1] at h
      rw [← h.2]
      exact hacc
  | cons i rest ih =>
      intro M acc M' out h hacc
      rw [pass1] at h
      cases hstep : pass1Step (M, acc) i with
      | none => rw [hstep] at h; exact absurd h (by simp)
      | some st' =>
          rw [hstep] at h
          dsimp only at h
          rcases st' with ⟨M1, acc1⟩
          exact ih M1 acc1 M' out h (pass1Step_emitted hstep hacc)

/-- The second pass maps `Emitted` instructions to `Emitted` instructions:
it only rewrites `MOV` sources, to values satisfying `emitted_of_mov`. -/
theorem pass2_emitted {M : TMap} {L : List Instr} (h : ∀ j ∈ L, Emitted j) :
    ∀ j ∈ pass2 M L, Emitted j := by
  intro j hj
  rw [pass2] at hj
  rcases List.mem_map.mp hj with ⟨i, hi, hji⟩
  have hie := h i hi
  by_cases hm : i.op = "MOV"
  · rcases hia : i.a1 with _ | k | s
    · rw [if_pos hm, hia] at hji
      dsimp only at hji
      subst hji
      exact hie
    · rw [if_pos hm, hia] at hji
      dsimp only at hji
      subst hji
      exact hie
    · rw [if_pos hm, hia] at hji
      dsimp only at hji
      cases hls : SMap.lookup M s with
      | none =>
          rw [hls] at hji
          subst hji
          exact hie
      | some v =>
          rw [hls] at hji
          subst hji
          exact emitted_of_mov _ _ ((hie.1 hm).2)
  · rw [if_neg hm] at hji
    subst hji
    exact hie

/-- The second pass with an empty `temp_map` is the identity. -/
theorem pass2_nil (L : List Instr) : pass2 ([] : TMap) L = L := by
  rw [pass2]
  have : ∀ i : Instr, (if i.op = "MOV" then
      (match i.a1 with
       | Py.str s =>
           (match SMap.lookup ([] : TMap) s with
            | Option.some v => Instr.mk "MOV" v Py.none i.res
            | Option.none => i)
       | _ => i)
      else i) = i := by
    intro i
    by_cases hm : i.op = "MOV"
    · rw [if_pos hm]
      cases i.a1 with
      | str s => simp [SMap.lookup]
      | none => simp
      | int k => simp
    · rw [if_neg hm]
  calc List.map _ L = List.map id L := List.map_congr_left fun i _ => this i
    _ = L := List.map_id L

/-- On all-`Emitted` input the first pass is a pure copy: `MOV`s never
target temps so `temp_map` stays empty, resolution is the identity, and
no arithmetic quadruple has two digit-string operands to fold. -/
theorem pass1_emitted_id : ∀ (L : List Instr) (acc : List Instr), (∀ i ∈ L, Emitted i) →
    pass1 L (([] : TMap), acc) = Option.some ([], acc ++ L) := by
  intro L
  induction L with
  | nil => intro acc _; simp [pass1]
  | cons i rest ih =>
      intro acc hall
      have hi := hall i (List.mem_cons_self _ _)
      have hrest : ∀ j ∈ rest, Emitted j := fun j hj => hall j (List.mem_cons_of_mem _ hj)
      have hstep : pass1Step (([] : TMap), acc) i = Option.some ([], acc ++ [i]) := by
        obtain ⟨op, a1, a2, res⟩ := i
        obtain ⟨e1, e2, e3⟩ := hi
        simp only at e1 e2 e3
        by_cases hctrl : op ∈ ctrlOps
        · simp only [pass1Step, hctrl, if_true, resolveObj_nil]
        · by_cases hmov : op = "MOV"
          · subst hmov
            obtain ⟨ha2, htd⟩ := e1 rfl
            subst ha2
            simp [pass1Step, hctrl, htd, resolveObj_nil]
          · by_cases harith : op ∈ arithOps
            · have hd := e2 harith
              simp only [pass1Step, hctrl, hmov, harith, if_false, if_true, resolveObj_nil, hd]
              simp [hd]
            · by_cases hret : op = "RET"
              · subst hret
                obtain ⟨ha2, hres⟩ := e3 (Or.inl rfl)
                subst ha2
                subst hres
                simp [pass1Step, hctrl, hmov, harith, resolveObj_nil]
              · by_cases hprint : op = "PRINT"
                · subst hprint
                  obtain ⟨ha2, hres⟩ := e3 (Or.inr rfl)
                  subst ha2
                  subst hres
                  simp [pass1Step, hctrl, hmov, harith, hret, resolveObj_nil]
                · simp [pass1Step, hctrl, hmov, harith, hret, hprint]
      rw [pass1, hstep]
      dsimp only
      rw [ih (acc ++ [i]) hrest]
      simp

/-- C9: the optimizer is idempotent.  Whenever `optimize T` succeeds with
output `o`, running `optimize` again on `o` succeeds and returns `o`
unchanged: every instruction the optimizer emits is of a shape
(`Emitted`) that both passes leave untouched on a second run. -/
theorem c9_idempotent : ∀ (T o : List Instr),
    optimize T = Option.some o → optimize o = Option.some o := by
  intro T o h
  rw [optimize] at h
  cases h1 : pass1 T (([] : TMap), ([] : List Instr)) with
  | none => rw [h1] at h; exact absurd h (by simp)
  | some st =>
      rcases st with ⟨M, out⟩
      rw [h1] at h
      dsimp only at h
      have ho : o = pass2 M out := (Option.some.inj h).symm
      subst ho
      have hout : ∀ j ∈ out, Emitted j := pass1_emitted T [] [] M out h1 (by simp)
      have hpo : ∀ j ∈ pass2 M out, Emitted j := pass2_emitted hout
      rw [optimize, pass1_emitted_id (pass2 M out) [] hpo]
      dsimp only
      rw [List.nil_append, pass2_nil]

/-- Witness for `c9_idempotent`: a two-`MOV` program through a temp is
optimized to a single `MOV`, on which `optimize` is the identity. -/
theorem c9_idempotent_witness :
    optimize [⟨"MOV", Py.int 5, Py.none, Option.some "t1"⟩,
              ⟨"MOV", Py.str "t1", Py.none, Option.some "x"⟩]
      = Option.some [⟨"MOV", Py.int 5, Py.none, Option.some "x"⟩]
    ∧ optimize [⟨"MOV", Py.int 5, Py.none, Option.some "x"⟩]
      = Option.some [⟨"MOV", Py.int 5, Py.none, Option.some "x"⟩] :=
  ⟨by decide,
   c9_idempotent
     [⟨"MOV", Py.int 5, Py.none, Option.some "t1"⟩, ⟨"MOV", Py.str "t1", Py.none, Option.some "x"⟩]
     [⟨"MOV", Py.int 5, Py.none, Option.some "x"⟩] (by decide)⟩

